import Mathlib

/-!
# Verification of the monitoring client (`TcpCommunicator.h`, `MainWindow.cpp`)

The development embeds the line-data records and the `MainWindow` operations that talk to
the `TcpCommunicator` as pure functions producing an ordered list of effects, and the Qt
signal/slot wiring of `MainWindow::setTcpCommunicator` as a list of connections. The
captured-image tab (image labels, grid layout, request timeout timer) and the click handlers
of the video widget are embedded as functions on the part of the window state they use.

The bodies of the `TcpCommunicator` member functions are not part of the sources (only the
header is); the inbound codec, the senders, the reconnection policy and the dispatch are
therefore modelled from the specification, each such definition saying so.
-/

namespace Client

/-! ## Line-data records (`TcpCommunicator.h`) -/

/-- Record `DetectionLineData` of `TcpCommunicator.h`. -/
structure DetectionLineData where
  index : Int
  x1 : Int
  y1 : Int
  x2 : Int
  y2 : Int
  name : String
  mode : String
  leftMatrixNum : Int
  rightMatrixNum : Int
deriving DecidableEq, Repr

/-- Record `PerpendicularLineData` of `TcpCommunicator.h`; `a` and `b` are C++ doubles and
are only ever copied. -/
structure PerpendicularLineData where
  index : Int
  a : Float
  b : Float

/-- Record `RoadLineData` of `TcpCommunicator.h`. -/
structure RoadLineData where
  index : Int
  matrixNum1 : Int
  x1 : Int
  y1 : Int
  matrixNum2 : Int
  x2 : Int
  y2 : Int
deriving DecidableEq, Repr

/-! ## `MainWindow` as a function from inputs to effects -/

/-- What `MainWindow` observes of the object behind `m_tcpCommunicator`: the value of
`isConnectedToServer()` and the value each sender returns. -/
structure Communicator where
  isConnectedToServer : Bool
  sendLineCoordinates : Int → Int → Int → Int → Bool
  sendMultipleRoadLines : List RoadLineData → Bool
  sendMultipleDetectionLines : List DetectionLineData → Bool
  sendPerpendicularLine : PerpendicularLineData → Bool

/-- Observable effects of a `MainWindow` operation, in program order: calls on the
communicator, `qDebug()` lines (the fixed label only) and modal `CustomMessageBox`es. -/
inductive Effect where
  | sendLineCoordinates (x1 y1 x2 y2 : Int)
  | sendMultipleRoadLines (roadLines : List RoadLineData)
  | sendMultipleDetectionLines (detectionLines : List DetectionLineData)
  | sendPerpendicularLine (lineData : PerpendicularLineData)
  | requestImageData (date : String) (hour : Int)
  | qDebug (label : String)
  | messageBox (title : String) (text : String)

/-- The road-line batches submitted through `sendMultipleRoadLines`, in order. -/
def Effect.roadBatches : List Effect → List (List RoadLineData)
  | [] => []
  | Effect.sendMultipleRoadLines l :: es => l :: Effect.roadBatches es
  | _ :: es => Effect.roadBatches es

/-- The detection-line batches submitted through `sendMultipleDetectionLines`, in order. -/
def Effect.detectionBatches : List Effect → List (List DetectionLineData)
  | [] => []
  | Effect.sendMultipleDetectionLines l :: es => l :: Effect.detectionBatches es
  | _ :: es => Effect.detectionBatches es

/-- Whether an effect is a call of a sender (or of `requestImageData`) on the communicator. -/
def Effect.isCall : Effect → Bool
  | Effect.qDebug _ => false
  | Effect.messageBox _ _ => false
  | _ => true

/-- The calls on the communicator among a list of effects, in order. -/
def Effect.calls (es : List Effect) : List Effect := es.filter Effect.isCall

/-- The guard `m_tcpCommunicator && m_tcpCommunicator->isConnectedToServer()`; the pointer
is `none` when null, and `comm` answers for the object it points to. -/
def connectedGuard (m_tcpCommunicator : Option Nat) (comm : Communicator) : Bool :=
  m_tcpCommunicator.isSome && comm.isConnectedToServer

/-- `MainWindow::sendCategorizedCoordinates` (MainWindow.cpp 1060-1086). -/
def sendCategorizedCoordinates (m_tcpCommunicator : Option Nat) (comm : Communicator)
    (roadLines : List RoadLineData) (detectionLines : List DetectionLineData) : List Effect :=
  if connectedGuard m_tcpCommunicator comm then
    (if !roadLines.isEmpty then
      Effect.sendMultipleRoadLines roadLines ::
        (if comm.sendMultipleRoadLines roadLines then [Effect.qDebug "도로선 전송 완료:"] else [])
     else [])
    ++
    (if !detectionLines.isEmpty then
      Effect.sendMultipleDetectionLines detectionLines ::
        (if comm.sendMultipleDetectionLines detectionLines then
          [Effect.qDebug "감지선 전송 완료:"] else [])
     else [])
    ++ [Effect.qDebug "카테고리별 좌표 전송 완료 - 도로선:"]
  else
    [Effect.qDebug "TCP 연결이 없어 좌표 전송 실패",
     Effect.messageBox "전송 실패" "서버에 연결되어 있지 않습니다."]

/-- The `perpendicularLineGenerated` handler connected in `MainWindow::onDrawButtonClicked`
(MainWindow.cpp 382-394). -/
def onDrawButtonClicked_perpendicularLineGenerated (m_tcpCommunicator : Option Nat)
    (comm : Communicator) (detectionLineIndex : Int) (a b : Float) : List Effect :=
  if connectedGuard m_tcpCommunicator comm then
    let perpData : PerpendicularLineData := ⟨detectionLineIndex, a, b⟩
    Effect.sendPerpendicularLine perpData ::
      (if comm.sendPerpendicularLine perpData then [Effect.qDebug "수직선 전송 성공"]
       else [Effect.messageBox "전송 실패" "수직선 전송에 실패했습니다."])
  else []

/-- The `perpendicularLineGenerated` handler connected in `MainWindow::onVideoStreamClicked`
(MainWindow.cpp 779-802). -/
def onVideoStreamClicked_perpendicularLineGenerated (m_tcpCommunicator : Option Nat)
    (comm : Communicator) (detectionLineIndex : Int) (a b : Float) : List Effect :=
  if connectedGuard m_tcpCommunicator comm then
    let perpData : PerpendicularLineData :=
      { index := detectionLineIndex, a := a, b := b }
    Effect.sendPerpendicularLine perpData ::
      (if comm.sendPerpendicularLine perpData then [Effect.qDebug "수직선 전송 성공 - index:"]
       else [Effect.qDebug "수직선 전송 실패",
             Effect.messageBox "전송 실패" "수직선 데이터 전송에 실패했습니다."])
  else [Effect.messageBox "연결 오류" "서버에 연결되어 있지 않습니다."]

/-! ## Signal/slot wiring of `MainWindow::setTcpCommunicator` -/

/-- The signals of `TcpCommunicator` that `MainWindow` subscribes to. -/
inductive Signal where
  | connected
  | disconnected
  | errorOccurred
  | messageReceived
  | imagesReceived
  | coordinatesConfirmed
  | statusUpdated
  | perpendicularLineConfirmed
deriving DecidableEq, Repr

/-- The `MainWindow` handlers that `setTcpCommunicator` connects; the last one is the lambda
given for `perpendicularLineConfirmed`. -/
inductive Slot where
  | onTcpConnected
  | onTcpDisconnected
  | onTcpError
  | onTcpDataReceived
  | onImagesReceived
  | onCoordinatesConfirmed
  | onStatusUpdated
  | perpendicularLineConfirmedLambda
deriving DecidableEq, Repr

/-- One Qt connection whose receiver is the `MainWindow`: the sender object (its address),
the signal and the handler. -/
structure Connection where
  sender : Nat
  signal : Signal
  slot : Slot
deriving DecidableEq, Repr

/-- The part of `MainWindow` that `setTcpCommunicator` reads and writes: the pointer
`m_tcpCommunicator` (`none` is `nullptr`) and the connections received by the window, in the
order they were made. -/
structure MainWindow where
  m_tcpCommunicator : Option Nat
  connections : List Connection
deriving DecidableEq, Repr

/-- The window as the constructor leaves it: `m_tcpCommunicator(nullptr)`, and
`setupNetworkConnection` connects nothing because the pointer is null. -/
def MainWindow.init : MainWindow := { m_tcpCommunicator := none, connections := [] }

/-- `QObject::connect(sender, signal, this, slot)` with the default connection type: one more
connection is appended, also when an equal one exists already. -/
def qtConnect (conns : List Connection) (sender : Nat) (signal : Signal) (slot : Slot) :
    List Connection :=
  conns ++ [⟨sender, signal, slot⟩]

/-- `QObject::disconnect(sender, signal, this, slot)`: every connection from that signal of
that sender to that slot is removed; with `none` for the slot (`nullptr` in the source) every
connection from that signal of that sender to the window is removed. -/
def qtDisconnect (conns : List Connection) (sender : Nat) (signal : Signal)
    (slot : Option Slot) : List Connection :=
  conns.filter fun c =>
    !(c.sender == sender && c.signal == signal &&
      (match slot with
       | none => true
       | some s => c.slot == s))

/-- `MainWindow::setTcpCommunicator` (MainWindow.cpp 129-183). -/
def setTcpCommunicator (w : MainWindow) (communicator : Option Nat) : MainWindow :=
  let afterDisconnect : List Connection :=
    match w.m_tcpCommunicator with
    | some old =>
      if w.m_tcpCommunicator ≠ communicator then
        let c1 := qtDisconnect w.connections old Signal.connected (some Slot.onTcpConnected)
        let c2 := qtDisconnect c1 old Signal.disconnected (some Slot.onTcpDisconnected)
        let c3 := qtDisconnect c2 old Signal.errorOccurred (some Slot.onTcpError)
        let c4 := qtDisconnect c3 old Signal.messageReceived (some Slot.onTcpDataReceived)
        let c5 := qtDisconnect c4 old Signal.imagesReceived (some Slot.onImagesReceived)
        let c6 := qtDisconnect c5 old Signal.coordinatesConfirmed
          (some Slot.onCoordinatesConfirmed)
        let c7 := qtDisconnect c6 old Signal.statusUpdated (some Slot.onStatusUpdated)
        qtDisconnect c7 old Signal.perpendicularLineConfirmed none
      else w.connections
    | none => w.connections
  let afterConnect : List Connection :=
    match communicator with
    | some c =>
      let d1 := qtConnect afterDisconnect c Signal.connected Slot.onTcpConnected
      let d2 := qtConnect d1 c Signal.disconnected Slot.onTcpDisconnected
      let d3 := qtConnect d2 c Signal.errorOccurred Slot.onTcpError
      let d4 := qtConnect d3 c Signal.messageReceived Slot.onTcpDataReceived
      let d5 := qtConnect d4 c Signal.imagesReceived Slot.onImagesReceived
      let d6 := qtConnect d5 c Signal.coordinatesConfirmed Slot.onCoordinatesConfirmed
      let d7 := qtConnect d6 c Signal.statusUpdated Slot.onStatusUpdated
      qtConnect d7 c Signal.perpendicularLineConfirmed Slot.perpendicularLineConfirmedLambda
    | none => afterDisconnect
  { m_tcpCommunicator := communicator, connections := afterConnect }

/-- The handlers of the window that one emission of `signal` by `sender` runs, in connection
order (each connection runs its slot once). -/
def handlersRun (w : MainWindow) (sender : Nat) (signal : Signal) : List Slot :=
  (w.connections.filter fun c => c.sender == sender && c.signal == signal).map
    Connection.slot

/-- The window after a sequence of `setTcpCommunicator` calls, starting from the constructed
window. -/
def setTcpCommunicatorCalls (calls : List (Option Nat)) : MainWindow :=
  calls.foldl setTcpCommunicator MainWindow.init

/-! ## Inbound codec (specification §4.2) -/

/-- Modelled from the spec: the outcome of one attempt to extract the next complete message
from the front of the InboundBuffer (the body of `TcpCommunicator::onReadyRead` is missing).
On success the attempt yields the decoded value and the number of bytes the message occupies
at the buffer front. The framing rule itself is left open by the spec (newline- or
length-delimited) and is a parameter `extract` of the codec. -/
inductive Extraction (M : Type) where
  | complete (message : M) (consumed : Nat)
  | incomplete
  | malformed

/-- Modelled from the spec: what the inbound path hands on for one read, a decoded message
(given to `processJsonMessage`) or a decode-error notification. -/
inductive Inbound (M : Type) where
  | decoded (message : M)
  | decodeError
deriving DecidableEq, Repr

/-- Modelled from the spec: the extraction loop missing from `TcpCommunicator.cpp`. "The
codec repeatedly attempts to extract the next complete message from the buffer front; on
success it removes exactly those bytes and yields a decoded value; on incomplete it leaves
the buffer untouched and waits for more bytes; on malformed content it discards the buffer
and raises a decode-error notification." The result is what was yielded and the buffer left;
`none` means the loop did not finish within `fuel` rounds. -/
def drain {M : Type} (extract : List UInt8 → Extraction M) :
    Nat → List UInt8 → Option (List (Inbound M) × List UInt8)
  | 0, _ => none
  | fuel + 1, buf =>
    match extract buf with
    | Extraction.complete message consumed =>
      match drain extract fuel (buf.drop consumed) with
      | some (out, left) => some (Inbound.decoded message :: out, left)
      | none => none
    | Extraction.incomplete => some ([], buf)
    | Extraction.malformed => some ([Inbound.decodeError], [])

/-- Modelled from the spec: `TcpCommunicator::onReadyRead` (body missing). "Raw bytes arriving
from the socket are appended to the InboundBuffer", here `m_receivedData`, and the extraction
loop runs on it; one round per buffered byte and one more is enough whenever every extracted
message occupies at least one byte. The header declares `m_receivedData` as a `QString`; the
buffer is modelled as the spec describes it, "a byte accumulator", and how the missing body
turns received bytes into text is not modelled. -/
def onReadyRead {M : Type} (extract : List UInt8 → Extraction M)
    (m_receivedData : List UInt8) (bytes : List UInt8) :
    Option (List (Inbound M) × List UInt8) :=
  drain extract ((m_receivedData ++ bytes).length + 1) (m_receivedData ++ bytes)

/-- The inbound path run over a sequence of reads, one fragment per `onReadyRead`, starting
with `m_receivedData`: everything yielded, in order, and the buffer left at the end. -/
def deliver {M : Type} (extract : List UInt8 → Extraction M) :
    List UInt8 → List (List UInt8) → Option (List (Inbound M) × List UInt8)
  | m_receivedData, [] => some ([], m_receivedData)
  | m_receivedData, bytes :: later =>
    match onReadyRead extract m_receivedData bytes with
    | none => none
    | some (out, left) =>
      match deliver extract left later with
      | none => none
      | some (out2, final) => some (out ++ out2, final)

/-- The byte string `w` is the wire form of the message `m` under the framing `extract`:
it is not empty, at the front of any stream it is extracted as `m` and occupies exactly its
own length, and while only a strict prefix of it has arrived the outcome is "incomplete". -/
def IsFrame {M : Type} (extract : List UInt8 → Extraction M) (w : List UInt8) (m : M) : Prop :=
  w ≠ [] ∧ (∀ s, extract (w ++ s) = Extraction.complete m w.length) ∧
    (∀ p, p <+: w → p ≠ w → extract p = Extraction.incomplete)

/-- Modelled from the spec: newline-delimited framing, one of the two framings the spec
names ("newline- or length-delimited"); `parse` stands for the JSON parser applied to one
line. No newline in the buffer means the message is incomplete; a line that does not parse
is malformed. -/
def extractLine {M : Type} (parse : List UInt8 → Option M) (buf : List UInt8) : Extraction M :=
  match buf.span (fun b => b != 10) with
  | (_, []) => Extraction.incomplete
  | (line, _ :: _) =>
    match parse line with
    | some message => Extraction.complete message (line.length + 1)
    | none => Extraction.malformed

/-! ## JSON values (Qt's `QJsonValue`, `QJsonObject`, `QJsonArray`) -/

/-- A Qt JSON value. Integers are kept apart from other doubles: every C++ `int` is held
exactly by a JSON number. An object is its list of members; `value` reads the first member
with a given key. -/
inductive QJsonValue where
  | null
  | undefined
  | bool (b : Bool)
  | int (n : Int)
  | double (d : Float)
  | string (s : String)
  | array (items : List QJsonValue)
  | object (members : List (String × QJsonValue))

/-- `QJsonObject::value(key)` / `operator[]`: the member with that key, `Undefined` when there
is none or the value is no object. -/
def QJsonValue.value : QJsonValue → String → QJsonValue
  | QJsonValue.object members, key => (members.lookup key).getD QJsonValue.undefined
  | _, _ => QJsonValue.undefined

/-- `QJsonValue::toBool()`: `false` unless the value is a boolean. -/
def QJsonValue.toBool : QJsonValue → Bool
  | QJsonValue.bool b => b
  | _ => false

/-- `QJsonValue::toInt()`: `0` unless the value is an integer number. -/
def QJsonValue.toInt : QJsonValue → Int
  | QJsonValue.int n => n
  | _ => 0

/-- `QJsonValue::toString()`: the empty string unless the value is a string. -/
def QJsonValue.toString : QJsonValue → String
  | QJsonValue.string s => s
  | _ => ""

/-- `QJsonValue::toArray()`: the empty array unless the value is an array. -/
def QJsonValue.toArray : QJsonValue → List QJsonValue
  | QJsonValue.array items => items
  | _ => []

/-- Qt's `QJsonDocument` serialisation, which is not code of this repository: `toJson` gives
the bytes of a document, `fromJson` parses bytes (`none` for a null document). -/
structure QJsonDocument where
  toJson : QJsonValue → List UInt8
  fromJson : List UInt8 → Option QJsonValue

/-! ## Notifications and dispatch (specification §4.2, §6) -/

/-- Record `ImageData` of `TcpCommunicator.h`. -/
structure ImageData where
  imagePath : String
  timestamp : String
  logText : String
  detectionType : String
  direction : String
deriving DecidableEq, Repr

/-- The signals of `TcpCommunicator.h` that carry results of the request/response channel. -/
inductive Notification where
  | connected
  | disconnected
  | errorOccurred (error : String)
  | messageReceived (message : String)
  | imagesReceived (images : List ImageData)
  | coordinatesConfirmed (success : Bool) (message : String)
  | detectionLineConfirmed (success : Bool) (message : String)
  | categorizedCoordinatesConfirmed (success : Bool) (message : String)
      (roadLinesProcessed : Int) (detectionLinesProcessed : Int)
  | statusUpdated (status : String)
  | roadLineConfirmed (success : Bool) (message : String)
  | perpendicularLineConfirmed (success : Bool) (message : String)
deriving DecidableEq, Repr

/-- Modelled from the spec: the kinds of the `Message` union (§3) together with the road-line
response that §6 lists among the recognised kinds. -/
inductive MessageKind where
  | RequestImages
  | ImagesResponse
  | SendCoordinates
  | CoordinatesResponse
  | DetectionLineResponse
  | CategorizedCoordinatesResponse
  | StatusUpdate
  | ErrorResponse
  | RoadLineResponse
  | PerpendicularLineResponse
deriving DecidableEq, Repr

/-! ## The `MessageType` enumeration (`TcpCommunicator.h`) -/

/-- The enumeration `MessageType` of `TcpCommunicator.h` (lines 21-29), with its six
enumerators. -/
inductive MessageType where
  | REQUEST_IMAGES
  | IMAGES_RESPONSE
  | SEND_COORDINATES
  | COORDINATES_RESPONSE
  | STATUS_UPDATE
  | ERROR_RESPONSE
deriving DecidableEq, Repr, Fintype

/-- The underlying value of an enumerator: none has an initialiser, so they count from 0 in
the order of declaration. -/
def MessageType.underlying : MessageType → Int
  | MessageType.REQUEST_IMAGES => 0
  | MessageType.IMAGES_RESPONSE => 1
  | MessageType.SEND_COORDINATES => 2
  | MessageType.COORDINATES_RESPONSE => 3
  | MessageType.STATUS_UPDATE => 4
  | MessageType.ERROR_RESPONSE => 5

/-- The nine kinds that the spec (§3) lists for the `Message` union. -/
def messageUnionKinds : List MessageKind :=
  [MessageKind.RequestImages, MessageKind.ImagesResponse, MessageKind.SendCoordinates,
   MessageKind.CoordinatesResponse, MessageKind.DetectionLineResponse,
   MessageKind.CategorizedCoordinatesResponse, MessageKind.StatusUpdate,
   MessageKind.ErrorResponse, MessageKind.PerpendicularLineResponse]

/-- The enumerator of `MessageType` that bears the name of a message kind; the kinds that no
enumerator is named after have none. -/
def MessageKind.messageType? : MessageKind → Option MessageType
  | MessageKind.RequestImages => some MessageType.REQUEST_IMAGES
  | MessageKind.ImagesResponse => some MessageType.IMAGES_RESPONSE
  | MessageKind.SendCoordinates => some MessageType.SEND_COORDINATES
  | MessageKind.CoordinatesResponse => some MessageType.COORDINATES_RESPONSE
  | MessageKind.StatusUpdate => some MessageType.STATUS_UPDATE
  | MessageKind.ErrorResponse => some MessageType.ERROR_RESPONSE
  | MessageKind.DetectionLineResponse => none
  | MessageKind.CategorizedCoordinatesResponse => none
  | MessageKind.RoadLineResponse => none
  | MessageKind.PerpendicularLineResponse => none

/-! ## Dispatch of decoded messages -/

/-- The type discriminator of a decoded message, the member `type` of its envelope. -/
def discriminator (jsonObj : QJsonValue) : String := (jsonObj.value "type").toString

/-- Modelled from the spec: `handlePerpendicularLineResponse` (body missing). The
confirmation carries the success flag and the message of the frame, read with Qt's
defaults: `perpendicularLineConfirmed(success, message)`. -/
def handlePerpendicularLineResponse (jsonObj : QJsonValue) : List Notification :=
  [Notification.perpendicularLineConfirmed (jsonObj.value "success").toBool
    (jsonObj.value "message").toString]

/-- Modelled from the spec: the response handlers that confirm with a success flag and a
message (`handleCoordinatesResponse`, `handleDetectionLineResponse`,
`handleRoadLineResponse`; bodies missing). -/
def handleConfirmation (confirm : Bool → String → Notification) (jsonObj : QJsonValue) :
    List Notification :=
  [confirm (jsonObj.value "success").toBool (jsonObj.value "message").toString]

/-- Modelled from the spec: `handleCategorizedCoordinatesResponse` (body missing), a
confirmation "carrying counts processed per category". -/
def handleCategorizedCoordinatesResponse (jsonObj : QJsonValue) : List Notification :=
  [Notification.categorizedCoordinatesConfirmed (jsonObj.value "success").toBool
    (jsonObj.value "message").toString (jsonObj.value "roadLinesProcessed").toInt
    (jsonObj.value "detectionLinesProcessed").toInt]

/-- Modelled from the spec: `handleImagesResponse` (body missing): an `ImagesResponse`
"carries an ordered sequence of image records", delivered as `imagesReceived`. -/
def handleImagesResponse (jsonObj : QJsonValue) : List Notification :=
  [Notification.imagesReceived ((jsonObj.value "images").toArray.map fun v =>
    { imagePath := (v.value "imagePath").toString
      timestamp := (v.value "timestamp").toString
      logText := (v.value "logText").toString
      detectionType := (v.value "detectionType").toString
      direction := (v.value "direction").toString })]

/-- The four line-category responses: the header declares a handler and a confirmation
signal for each of them, and `MessageType` has no enumerator for any of them. -/
inductive LineResponse where
  | DetectionLine
  | CategorizedCoordinates
  | RoadLine
  | PerpendicularLine
deriving DecidableEq, Repr

/-- What a decoded message was handled as: a line-category response, or the `MessageType`
value that `stringToMessageType` gave for its discriminator. -/
inductive Handled where
  | lineResponse (kind : LineResponse)
  | messageType (type : MessageType)
deriving DecidableEq, Repr

/-- Modelled from the spec: `TcpCommunicator::processJsonMessage` (body missing). "Each
decoded message's type discriminator selects a handler." The four line-category responses
have no `MessageType` value, so they are told by their wire discriminator; the table of those
discriminators is not in the sources and is the parameter `lineResponse`. Every other
message is dispatched on the value of `stringToMessageType`, declared in the header as
`MessageType stringToMessageType(const QString &)`: a total function into the six
enumerators, none of which stands for "unknown"; its body is missing and it is a parameter.
The two enumerators of messages the client only sends have no handler declared; following
"reported via the error/status path, never ignored silently" (§6) they are reported as
errors. The result is what the message was handled as and the notifications emitted. -/
def processJsonMessage (lineResponse : String → Option LineResponse)
    (stringToMessageType : String → MessageType) (jsonObj : QJsonValue) :
    Handled × List Notification :=
  match lineResponse (discriminator jsonObj) with
  | some LineResponse.DetectionLine =>
    (Handled.lineResponse LineResponse.DetectionLine,
      handleConfirmation Notification.detectionLineConfirmed jsonObj)
  | some LineResponse.CategorizedCoordinates =>
    (Handled.lineResponse LineResponse.CategorizedCoordinates,
      handleCategorizedCoordinatesResponse jsonObj)
  | some LineResponse.RoadLine =>
    (Handled.lineResponse LineResponse.RoadLine,
      handleConfirmation Notification.roadLineConfirmed jsonObj)
  | some LineResponse.PerpendicularLine =>
    (Handled.lineResponse LineResponse.PerpendicularLine,
      handlePerpendicularLineResponse jsonObj)
  | none =>
    (Handled.messageType (stringToMessageType (discriminator jsonObj)),
      match stringToMessageType (discriminator jsonObj) with
      | MessageType.IMAGES_RESPONSE => handleImagesResponse jsonObj
      | MessageType.COORDINATES_RESPONSE =>
        handleConfirmation Notification.coordinatesConfirmed jsonObj
      | MessageType.STATUS_UPDATE =>
        [Notification.statusUpdated (jsonObj.value "status").toString]
      | MessageType.ERROR_RESPONSE =>
        [Notification.errorOccurred (jsonObj.value "message").toString]
      | MessageType.REQUEST_IMAGES =>
        [Notification.errorOccurred ("Unexpected message type: " ++ discriminator jsonObj)]
      | MessageType.SEND_COORDINATES =>
        [Notification.errorOccurred ("Unexpected message type: " ++ discriminator jsonObj)])

/-- How often `perpendicularLineConfirmed` is emitted among some notifications. -/
def countPerpendicularLineConfirmed : List Notification → Nat
  | [] => 0
  | Notification.perpendicularLineConfirmed _ _ :: rest =>
    countPerpendicularLineConfirmed rest + 1
  | _ :: rest => countPerpendicularLineConfirmed rest

/-! ## Connection manager (specification §3, §4.1) -/

/-- Modelled from the spec: `ConnectionState` (§3), "exactly one is active at any time". -/
inductive ConnectionState where
  | Disconnected
  | Connecting
  | TlsHandshaking
  | Connected
  | Reconnecting
deriving DecidableEq, Repr

/-- Modelled from the spec: the state of a `TcpCommunicator`, whose member functions are
missing from the sources. The `m_` members are those of `TcpCommunicator.h`; the two timer
flags say whether `m_connectionTimer` / `m_reconnectTimer` is running, `useTls` whether the
endpoint requires transport security, `trustHost` the explicit flag that lets a handshake
with certificate errors proceed, `written` the bytes written to the socket so far and
`emitted` the notifications emitted so far. -/
structure TcpCommunicator where
  state : ConnectionState
  useTls : Bool
  trustHost : Bool
  m_receivedData : List UInt8
  m_reconnectEnabled : Bool
  m_reconnectAttempts : Nat
  m_maxReconnectAttempts : Nat
  connectionTimerActive : Bool
  reconnectTimerActive : Bool
  written : List UInt8
  emitted : List Notification
deriving DecidableEq, Repr

/-- A freshly constructed communicator: disconnected, nothing buffered, counter at zero. -/
def TcpCommunicator.init (useTls trustHost reconnectEnabled : Bool)
    (maxReconnectAttempts : Nat) : TcpCommunicator :=
  { state := ConnectionState.Disconnected
    useTls := useTls
    trustHost := trustHost
    m_receivedData := []
    m_reconnectEnabled := reconnectEnabled
    m_reconnectAttempts := 0
    m_maxReconnectAttempts := maxReconnectAttempts
    connectionTimerActive := false
    reconnectTimerActive := false
    written := []
    emitted := [] }

/-- Emission of one notification. -/
def TcpCommunicator.emit (c : TcpCommunicator) (n : Notification) : TcpCommunicator :=
  { c with emitted := c.emitted ++ [n] }

/-- Modelled from the spec: `isConnectedToServer()`, "the Connection Manager is in
`Connected` state". -/
def TcpCommunicator.isConnectedToServer (c : TcpCommunicator) : Bool :=
  c.state == ConnectionState.Connected

/-- Modelled from the spec: `connectToServer` (§4.1 `connect`): "transitions to
`Connecting`; starts a connection-timeout timer". -/
def TcpCommunicator.connectToServer (c : TcpCommunicator) : TcpCommunicator :=
  { c with state := ConnectionState.Connecting, connectionTimerActive := true }

/-- Modelled from the spec: the completion of a connection: "On success, transitions to
`Connected`, resets the InboundBuffer, resets reconnect-attempt counter, emits `connected`";
the timeout timer is cancelled ("cancel-on-success is mandatory"). -/
def TcpCommunicator.connectionEstablished (c : TcpCommunicator) : TcpCommunicator :=
  ({ c with
      state := ConnectionState.Connected
      m_receivedData := []
      m_reconnectAttempts := 0
      connectionTimerActive := false }).emit Notification.connected

/-- Modelled from the spec: the reconnection policy applied after a failure. "If
reconnection is enabled, transition to `Reconnecting` and schedule a retry after a delay;
retries are capped at a configurable maximum attempt count, after which the manager gives up
and remains `Disconnected`. Each retry increments an attempt counter." -/
def TcpCommunicator.scheduleRetry (c : TcpCommunicator) : TcpCommunicator :=
  if c.m_reconnectEnabled && decide (c.m_reconnectAttempts < c.m_maxReconnectAttempts) then
    { c with
        state := ConnectionState.Reconnecting
        m_reconnectAttempts := c.m_reconnectAttempts + 1
        reconnectTimerActive := true }
  else
    { c with state := ConnectionState.Disconnected, reconnectTimerActive := false }

/-- Modelled from the spec: the socket-level `onConnected` slot: with transport security
"the manager transitions to `TlsHandshaking` and initiates the handshake", otherwise the
connection is established. -/
def TcpCommunicator.onConnected (c : TcpCommunicator) : TcpCommunicator :=
  if c.useTls then { c with state := ConnectionState.TlsHandshaking }
  else c.connectionEstablished

/-- Modelled from the spec: `onSslEncrypted`, the handshake succeeded. -/
def TcpCommunicator.onSslEncrypted (c : TcpCommunicator) : TcpCommunicator :=
  if c.state = ConnectionState.TlsHandshaking then c.connectionEstablished else c

/-- Modelled from the spec: `onError`, a socket error: "transition to `Disconnected`, emit
`disconnected`/`errorOccurred`, then" apply the reconnection policy. -/
def TcpCommunicator.onError (c : TcpCommunicator) (error : String) : TcpCommunicator :=
  let wasConnected := c.state == ConnectionState.Connected
  let c1 : TcpCommunicator :=
    { c with state := ConnectionState.Disconnected, connectionTimerActive := false }
  let c2 := if wasConnected then c1.emit Notification.disconnected else c1
  (c2.emit (Notification.errorOccurred error)).scheduleRetry

/-- Modelled from the spec: `onSslErrors`: handshake failures "are reported as errors and
may be configured to either abort or proceed only for explicitly trusted hosts". -/
def TcpCommunicator.onSslErrors (c : TcpCommunicator) (error : String) : TcpCommunicator :=
  if c.trustHost then c.emit (Notification.errorOccurred error) else c.onError error

/-- Modelled from the spec: `onDisconnected`, an "unexpected socket closure while
`Connected`"; after `disconnectFromServer` the state is `Disconnected` already and nothing is
retried. -/
def TcpCommunicator.onDisconnected (c : TcpCommunicator) : TcpCommunicator :=
  if c.state = ConnectionState.Connected then
    (({ c with state := ConnectionState.Disconnected }).emit
      Notification.disconnected).scheduleRetry
  else c

/-- Modelled from the spec: `onConnectionTimeout`: "on expiry with no completed connection,
aborts the attempt, raises an `errorOccurred` notification, and (if reconnection is enabled)
schedules a retry"; a cancelled timer does not fire. -/
def TcpCommunicator.onConnectionTimeout (c : TcpCommunicator) : TcpCommunicator :=
  if c.connectionTimerActive && c.state != ConnectionState.Connected then
    (({ c with state := ConnectionState.Disconnected, connectionTimerActive := false }).emit
      (Notification.errorOccurred "Connection timeout")).scheduleRetry
  else c

/-- Modelled from the spec: `attemptReconnection`, the slot of the single-shot retry timer:
the scheduled retry is a new connection attempt; a cancelled timer does not fire. -/
def TcpCommunicator.attemptReconnection (c : TcpCommunicator) : TcpCommunicator :=
  if c.reconnectTimerActive then
    ({ c with reconnectTimerActive := false }).connectToServer
  else c

/-- Modelled from the spec: `disconnectFromServer`: "always transitions to `Disconnected`
regardless of prior state; closes the socket; cancels any pending timers; does not itself
retry". -/
def TcpCommunicator.disconnectFromServer (c : TcpCommunicator) : TcpCommunicator :=
  { c with
      state := ConnectionState.Disconnected
      connectionTimerActive := false
      reconnectTimerActive := false }

/-- `setReconnectEnabled` of `TcpCommunicator.h`. -/
def TcpCommunicator.setReconnectEnabled (c : TcpCommunicator) (enabled : Bool) :
    TcpCommunicator :=
  { c with m_reconnectEnabled := enabled }

/-- What can happen to the connection manager: calls of its public operations and the slots
run by the socket and by the two timers. -/
inductive ConnectionEvent where
  | connectToServer
  | disconnectFromServer
  | setReconnectEnabled (enabled : Bool)
  | onConnected
  | onSslEncrypted
  | onSslErrors (error : String)
  | onError (error : String)
  | onDisconnected
  | onConnectionTimeout
  | attemptReconnection
deriving DecidableEq, Repr

/-- One step of the connection manager. -/
def TcpCommunicator.step (c : TcpCommunicator) : ConnectionEvent → TcpCommunicator
  | ConnectionEvent.connectToServer => c.connectToServer
  | ConnectionEvent.disconnectFromServer => c.disconnectFromServer
  | ConnectionEvent.setReconnectEnabled enabled => c.setReconnectEnabled enabled
  | ConnectionEvent.onConnected => c.onConnected
  | ConnectionEvent.onSslEncrypted => c.onSslEncrypted
  | ConnectionEvent.onSslErrors error => c.onSslErrors error
  | ConnectionEvent.onError error => c.onError error
  | ConnectionEvent.onDisconnected => c.onDisconnected
  | ConnectionEvent.onConnectionTimeout => c.onConnectionTimeout
  | ConnectionEvent.attemptReconnection => c.attemptReconnection

/-- The connection manager after a sequence of events. -/
def TcpCommunicator.run (c : TcpCommunicator) (events : List ConnectionEvent) :
    TcpCommunicator :=
  events.foldl TcpCommunicator.step c

/-- The test of §8: a first attempt that fails, a retry that times out, a retry that
succeeds, and then the loss of the connection: "fail 2 times, succeed, fail once more". -/
def failTwiceSucceedFailOnce : List ConnectionEvent :=
  [ConnectionEvent.connectToServer, ConnectionEvent.onError "Connection refused",
   ConnectionEvent.attemptReconnection, ConnectionEvent.onConnectionTimeout,
   ConnectionEvent.attemptReconnection, ConnectionEvent.onConnected,
   ConnectionEvent.onSslEncrypted, ConnectionEvent.onError "Remote host closed"]

/-! ## Outbound messages and senders (specification §4.2, §4.3) -/

/-- Record `CategorizedLineData` of `TcpCommunicator.h`. -/
structure CategorizedLineData where
  x1 : Int
  y1 : Int
  x2 : Int
  y2 : Int
deriving DecidableEq, Repr

/-- The wire discriminators of the outbound messages, one per sender; they are constants of
the missing `TcpCommunicator.cpp` and are taken as a parameter. -/
structure OutboundTypes where
  sendCoordinates : String
  detectionLine : String
  multipleDetectionLines : String
  categorizedCoordinates : String
  roadLine : String
  multipleRoadLines : String
  perpendicularLine : String

/-- Modelled from the spec: `createBaseMessage` (body missing), the "common envelope
containing a type discriminator"; the payload is added as member `data`. -/
def createBaseMessage (type : String) (payload : QJsonValue) : QJsonValue :=
  QJsonValue.object [("type", QJsonValue.string type), ("data", payload)]

/-- Modelled from the spec: the JSON object of one `RoadLineData`, a member per field, named
as in `TcpCommunicator.h`. -/
def encodeRoadLine (d : RoadLineData) : QJsonValue :=
  QJsonValue.object
    [("index", QJsonValue.int d.index), ("matrixNum1", QJsonValue.int d.matrixNum1),
     ("x1", QJsonValue.int d.x1), ("y1", QJsonValue.int d.y1),
     ("matrixNum2", QJsonValue.int d.matrixNum2),
     ("x2", QJsonValue.int d.x2), ("y2", QJsonValue.int d.y2)]

/-- Modelled from the spec: reading one `RoadLineData` back from its JSON object with Qt's
accessors (the client has no such decoder; it is the receiving side of the round trip). -/
def decodeRoadLine (v : QJsonValue) : RoadLineData :=
  { index := (v.value "index").toInt
    matrixNum1 := (v.value "matrixNum1").toInt
    x1 := (v.value "x1").toInt
    y1 := (v.value "y1").toInt
    matrixNum2 := (v.value "matrixNum2").toInt
    x2 := (v.value "x2").toInt
    y2 := (v.value "y2").toInt }

/-- Modelled from the spec: the message of `sendMultipleRoadLines`: "the full ordered
sequence as one payload (a set of lines, not one message per line)". -/
def encodeRoadLines (types : OutboundTypes) (roadLines : List RoadLineData) : QJsonValue :=
  createBaseMessage types.multipleRoadLines (QJsonValue.array (roadLines.map encodeRoadLine))

/-- Modelled from the spec: reading a road-line batch back from a decoded message. -/
def decodeRoadLines (message : QJsonValue) : List RoadLineData :=
  (message.value "data").toArray.map decodeRoadLine

/-- Modelled from the spec: the JSON object of one `DetectionLineData`. -/
def encodeDetectionLine (d : DetectionLineData) : QJsonValue :=
  QJsonValue.object
    [("index", QJsonValue.int d.index),
     ("x1", QJsonValue.int d.x1), ("y1", QJsonValue.int d.y1),
     ("x2", QJsonValue.int d.x2), ("y2", QJsonValue.int d.y2),
     ("name", QJsonValue.string d.name), ("mode", QJsonValue.string d.mode),
     ("leftMatrixNum", QJsonValue.int d.leftMatrixNum),
     ("rightMatrixNum", QJsonValue.int d.rightMatrixNum)]

/-- Modelled from the spec: the JSON object of one unclassified line. -/
def encodeLine (x1 y1 x2 y2 : Int) : QJsonValue :=
  QJsonValue.object
    [("x1", QJsonValue.int x1), ("y1", QJsonValue.int y1),
     ("x2", QJsonValue.int x2), ("y2", QJsonValue.int y2)]

/-- Modelled from the spec: the JSON object of one `PerpendicularLineData`. -/
def encodePerpendicularLine (d : PerpendicularLineData) : QJsonValue :=
  QJsonValue.object
    [("index", QJsonValue.int d.index), ("a", QJsonValue.double d.a),
     ("b", QJsonValue.double d.b)]

/-- Modelled from the spec: `sendJsonMessage` (body missing). "All senders fail immediately
(return failure, no send attempted) if the Connection Manager is not in `Connected` state";
otherwise the serialised message is written to the socket in one piece. -/
def TcpCommunicator.sendJsonMessage (doc : QJsonDocument) (c : TcpCommunicator)
    (message : QJsonValue) : Bool × TcpCommunicator :=
  if c.isConnectedToServer then (true, { c with written := c.written ++ doc.toJson message })
  else (false, c)

/-- Modelled from the spec: `sendLineCoordinates`, "a single unclassified line; wraps into a
`SendCoordinates` message". -/
def TcpCommunicator.sendLineCoordinates (doc : QJsonDocument) (types : OutboundTypes)
    (c : TcpCommunicator) (x1 y1 x2 y2 : Int) : Bool × TcpCommunicator :=
  c.sendJsonMessage doc (createBaseMessage types.sendCoordinates (encodeLine x1 y1 x2 y2))

/-- Modelled from the spec: `sendDetectionLine`, a single-record send. -/
def TcpCommunicator.sendDetectionLine (doc : QJsonDocument) (types : OutboundTypes)
    (c : TcpCommunicator) (lineData : DetectionLineData) : Bool × TcpCommunicator :=
  c.sendJsonMessage doc (createBaseMessage types.detectionLine (encodeDetectionLine lineData))

/-- Modelled from the spec: `sendMultipleDetectionLines`, the whole sequence as one
payload. -/
def TcpCommunicator.sendMultipleDetectionLines (doc : QJsonDocument) (types : OutboundTypes)
    (c : TcpCommunicator) (detectionLines : List DetectionLineData) :
    Bool × TcpCommunicator :=
  c.sendJsonMessage doc (createBaseMessage types.multipleDetectionLines
    (QJsonValue.array (detectionLines.map encodeDetectionLine)))

/-- Modelled from the spec: `sendCategorizedLineCoordinates`, both categories in one
message. -/
def TcpCommunicator.sendCategorizedLineCoordinates (doc : QJsonDocument)
    (types : OutboundTypes) (c : TcpCommunicator)
    (roadLines detectionLines : List CategorizedLineData) : Bool × TcpCommunicator :=
  c.sendJsonMessage doc (createBaseMessage types.categorizedCoordinates
    (QJsonValue.object
      [("roadLines", QJsonValue.array (roadLines.map fun l => encodeLine l.x1 l.y1 l.x2 l.y2)),
       ("detectionLines",
        QJsonValue.array (detectionLines.map fun l => encodeLine l.x1 l.y1 l.x2 l.y2))]))

/-- Modelled from the spec: `sendRoadLine`, a single-record send. -/
def TcpCommunicator.sendRoadLine (doc : QJsonDocument) (types : OutboundTypes)
    (c : TcpCommunicator) (lineData : RoadLineData) : Bool × TcpCommunicator :=
  c.sendJsonMessage doc (createBaseMessage types.roadLine (encodeRoadLine lineData))

/-- Modelled from the spec: `sendMultipleRoadLines`, the whole sequence as one payload. -/
def TcpCommunicator.sendMultipleRoadLines (doc : QJsonDocument) (types : OutboundTypes)
    (c : TcpCommunicator) (roadLines : List RoadLineData) : Bool × TcpCommunicator :=
  c.sendJsonMessage doc (encodeRoadLines types roadLines)

/-- Modelled from the spec: `sendPerpendicularLine`, a "single-record send". -/
def TcpCommunicator.sendPerpendicularLine (doc : QJsonDocument) (types : OutboundTypes)
    (c : TcpCommunicator) (lineData : PerpendicularLineData) : Bool × TcpCommunicator :=
  c.sendJsonMessage doc
    (createBaseMessage types.perpendicularLine (encodePerpendicularLine lineData))

/-- A call of one of the eight senders of `TcpCommunicator.h`, with its arguments. -/
inductive SenderCall where
  | sendLineCoordinates (x1 y1 x2 y2 : Int)
  | sendDetectionLine (lineData : DetectionLineData)
  | sendMultipleDetectionLines (detectionLines : List DetectionLineData)
  | sendCategorizedLineCoordinates (roadLines detectionLines : List CategorizedLineData)
  | sendRoadLine (lineData : RoadLineData)
  | sendMultipleRoadLines (roadLines : List RoadLineData)
  | sendPerpendicularLine (lineData : PerpendicularLineData)
  | sendJsonMessage (message : QJsonValue)

/-- Running a sender call: the value returned and the communicator afterwards. -/
def TcpCommunicator.send (doc : QJsonDocument) (types : OutboundTypes) (c : TcpCommunicator) :
    SenderCall → Bool × TcpCommunicator
  | SenderCall.sendLineCoordinates x1 y1 x2 y2 => c.sendLineCoordinates doc types x1 y1 x2 y2
  | SenderCall.sendDetectionLine lineData => c.sendDetectionLine doc types lineData
  | SenderCall.sendMultipleDetectionLines detectionLines =>
    c.sendMultipleDetectionLines doc types detectionLines
  | SenderCall.sendCategorizedLineCoordinates roadLines detectionLines =>
    c.sendCategorizedLineCoordinates doc types roadLines detectionLines
  | SenderCall.sendRoadLine lineData => c.sendRoadLine doc types lineData
  | SenderCall.sendMultipleRoadLines roadLines => c.sendMultipleRoadLines doc types roadLines
  | SenderCall.sendPerpendicularLine lineData => c.sendPerpendicularLine doc types lineData
  | SenderCall.sendJsonMessage message => c.sendJsonMessage doc message

/-! ## Concrete instances used to exercise the theorems -/

/-- A communicator object that reports itself connected and accepts every send. -/
def acceptingCommunicator : Communicator :=
  { isConnectedToServer := true
    sendLineCoordinates := fun _ _ _ _ => true
    sendMultipleRoadLines := fun _ => true
    sendMultipleDetectionLines := fun _ => true
    sendPerpendicularLine := fun _ => true }

/-- A discriminator table that knows the one wire name the spec gives,
`perpendicular_line_response`. -/
def perpendicularOnly (typeStr : String) : Option LineResponse :=
  if typeStr = "perpendicular_line_response" then some LineResponse.PerpendicularLine
  else none

/-- The bytes of an ASCII string. -/
def asciiBytes (s : String) : List UInt8 := s.data.map fun ch => ch.toNat.toUInt8

/-- The ASCII string of some bytes. -/
def asciiString (bytes : List UInt8) : String :=
  String.mk (bytes.map fun b => Char.ofNat b.toNat)

/-- The body of a JSON string: a backslash is put before every double quote and every
backslash. -/
def escapeBytes : List UInt8 → List UInt8
  | [] => []
  | b :: rest =>
    if b = 34 ∨ b = 92 then 92 :: b :: escapeBytes rest else b :: escapeBytes rest

/-- Decimal digits of a natural number, most significant first. -/
def printDigits : Nat → Nat → List UInt8 → List UInt8
  | 0, _, acc => acc
  | fuel + 1, n, acc =>
    if n < 10 then (48 + n).toUInt8 :: acc
    else printDigits fuel (n / 10) ((48 + n % 10).toUInt8 :: acc)

/-- Decimal form of an integer. -/
def printInt : Int → List UInt8
  | Int.ofNat n => printDigits (n + 1) n []
  | Int.negSucc n => 45 :: printDigits (n + 2) (n + 1) []

mutual
/-- Compact JSON text of a value: members and items in the order of the value, quotes and
backslashes of strings escaped, integers in decimal, other doubles in the decimal notation of
`toString`. -/
def printJson : QJsonValue → List UInt8
  | QJsonValue.null => [110, 117, 108, 108]
  | QJsonValue.undefined => [110, 117, 108, 108]
  | QJsonValue.bool true => [116, 114, 117, 101]
  | QJsonValue.bool false => [102, 97, 108, 115, 101]
  | QJsonValue.int n => printInt n
  | QJsonValue.double d => asciiBytes (toString d)
  | QJsonValue.string s => 34 :: (escapeBytes (asciiBytes s) ++ [34])
  | QJsonValue.array items => 91 :: (printItems items ++ [93])
  | QJsonValue.object members => 123 :: (printMembers members ++ [125])
/-- Compact JSON text of the items of an array, comma-separated. -/
def printItems : List QJsonValue → List UInt8
  | [] => []
  | v :: rest =>
    match rest with
    | [] => printJson v
    | _ :: _ => printJson v ++ 44 :: printItems rest
/-- Compact JSON text of the members of an object, comma-separated. -/
def printMembers : List (String × QJsonValue) → List UInt8
  | [] => []
  | (k, v) :: rest =>
    match rest with
    | [] => 34 :: (escapeBytes (asciiBytes k) ++ 34 :: 58 :: printJson v)
    | _ :: _ =>
      34 :: (escapeBytes (asciiBytes k) ++ 34 :: 58 :: printJson v) ++ 44 :: printMembers rest
end

/-- Whether a byte is an ASCII digit. -/
def isDigit (b : UInt8) : Bool := 48 ≤ b && b ≤ 57

/-- Reads a run of decimal digits. -/
def parseDigits : List UInt8 → Nat → Nat × List UInt8
  | [], acc => (acc, [])
  | b :: rest, acc =>
    if isDigit b then parseDigits rest (acc * 10 + (b.toNat - 48)) else (acc, b :: rest)

/-- Reads a string body up to its closing quote; `escaped` says that the byte before was an
escaping backslash, so that the next byte is taken as it is. -/
def parseString : List UInt8 → List UInt8 → Bool → Option (String × List UInt8)
  | [], _, _ => none
  | b :: rest, acc, true => parseString rest (b :: acc) false
  | b :: rest, acc, false =>
    if b = 34 then some (asciiString acc.reverse, rest)
    else if b = 92 then parseString rest acc true
    else parseString rest (b :: acc) false

mutual
/-- Reads one compact JSON value from the front of the input: a number by its first digit or
minus sign, a string by its quote, an array or object by its bracket, a literal by its
first letter. -/
def parseValue : Nat → List UInt8 → Option (QJsonValue × List UInt8)
  | 0, _ => none
  | _ + 1, [] => none
  | fuel + 1, b :: rest =>
    if isDigit b then
      some (QJsonValue.int ((parseDigits (b :: rest) 0).1 : Int), (parseDigits (b :: rest) 0).2)
    else if b = 45 then
      if (rest.head?.map isDigit) = some true then
        some (QJsonValue.int (-((parseDigits rest 0).1 : Int)), (parseDigits rest 0).2)
      else none
    else if b = 34 then
      (parseString rest [] false).map fun r => (QJsonValue.string r.1, r.2)
    else if b = 91 then
      if rest.head? = some 93 then some (QJsonValue.array [], rest.tail)
      else (parseItems fuel rest).map fun r => (QJsonValue.array r.1, r.2)
    else if b = 123 then
      if rest.head? = some 125 then some (QJsonValue.object [], rest.tail)
      else (parseMembers fuel rest).map fun r => (QJsonValue.object r.1, r.2)
    else if b = 110 then
      if rest.take 3 = [117, 108, 108] then some (QJsonValue.null, rest.drop 3) else none
    else if b = 116 then
      if rest.take 3 = [114, 117, 101] then some (QJsonValue.bool true, rest.drop 3) else none
    else if b = 102 then
      if rest.take 4 = [97, 108, 115, 101] then some (QJsonValue.bool false, rest.drop 4)
      else none
    else none
/-- Reads the items of an array up to its closing bracket. -/
def parseItems : Nat → List UInt8 → Option (List QJsonValue × List UInt8)
  | 0, _ => none
  | fuel + 1, bs =>
    match parseValue fuel bs with
    | none => none
    | some (v, rest) =>
      if rest.head? = some 44 then (parseItems fuel rest.tail).map fun r => (v :: r.1, r.2)
      else if rest.head? = some 93 then some ([v], rest.tail)
      else none
/-- Reads the members of an object up to its closing brace. -/
def parseMembers : Nat → List UInt8 → Option (List (String × QJsonValue) × List UInt8)
  | 0, _ => none
  | fuel + 1, bs =>
    if bs.head? = some 34 then
      match parseString bs.tail [] false with
      | none => none
      | some (k, rest) =>
        if rest.head? = some 58 then
          match parseValue fuel rest.tail with
          | none => none
          | some (v, rest2) =>
            if rest2.head? = some 44 then
              (parseMembers fuel rest2.tail).map fun r => ((k, v) :: r.1, r.2)
            else if rest2.head? = some 125 then some ([(k, v)], rest2.tail)
            else none
        else none
    else none
end

/-- Modelled from the spec: the wire form of a message, "JSON-valued messages" (§6), as
compact JSON text, with the parser that reads it back; an instance of `QJsonDocument`. Parsing
is given one round per byte and one more. -/
def compactJson : QJsonDocument :=
  { toJson := printJson
    fromJson := fun bytes =>
      match parseValue (bytes.length + 1) bytes with
      | some (v, []) => some v
      | _ => none }

/-! ## More concrete instances -/

/-- Discriminators for the outbound messages, used in examples. -/
def exampleTypes : OutboundTypes :=
  { sendCoordinates := "send_coordinates"
    detectionLine := "detection_line"
    multipleDetectionLines := "detection_lines"
    categorizedCoordinates := "categorized_coordinates"
    roadLine := "road_line"
    multipleRoadLines := "road_lines"
    perpendicularLine := "perpendicular_line" }

/-- A batch of three road lines. -/
def threeRoadLines : List RoadLineData :=
  [⟨1, 11, 10, 20, 12, 300, 400⟩, ⟨2, 21, -5, 0, 22, 64, 48⟩, ⟨3, 31, 7, 7, 32, 1919, 1079⟩]

/-- Two road lines that carry the same index. -/
def sameIndexRoadLines : List RoadLineData :=
  [⟨1, 11, 10, 20, 12, 300, 400⟩, ⟨1, 21, 50, 60, 22, 700, 800⟩]

/-- Two detection lines that carry the same index. -/
def sameIndexDetectionLines : List DetectionLineData :=
  [⟨4, 0, 0, 100, 100, "gate", "Right", 1, 2⟩, ⟨4, 5, 5, 200, 50, "exit", "Left", 3, 4⟩]

/-! ## Captured-image tab of `MainWindow`: image labels, grid and request timer -/

/-- The mouse button of a `QMouseEvent`. -/
inductive MouseButton where
  | NoButton
  | LeftButton
  | RightButton
  | MiddleButton
  | other (code : Nat)
deriving DecidableEq, Repr

/-- What a label shows: the pixmap loaded from a path, or a text. -/
inductive LabelContent where
  | pixmap (path : String)
  | text (s : String)
deriving DecidableEq, Repr

/-- A `ClickableImageLabel` (MainWindow.cpp 21-42): the three members set by `setImageData`
and what the label shows. -/
structure ClickableImageLabel where
  m_imagePath : String
  m_timestamp : String
  m_logText : String
  content : LabelContent
deriving DecidableEq, Repr

/-- One emission of `ClickableImageLabel::clicked(imagePath, timestamp, logText)`. -/
structure Clicked where
  imagePath : String
  timestamp : String
  logText : String
deriving DecidableEq, Repr

/-- A label as `new ClickableImageLabel()` leaves it: empty strings, nothing shown. -/
def ClickableImageLabel.new : ClickableImageLabel :=
  { m_imagePath := "", m_timestamp := "", m_logText := "", content := LabelContent.text "" }

/-- `ClickableImageLabel::setImageData` (MainWindow.cpp 29-34). -/
def ClickableImageLabel.setImageData (l : ClickableImageLabel)
    (imagePath timestamp logText : String) : ClickableImageLabel :=
  { l with m_imagePath := imagePath, m_timestamp := timestamp, m_logText := logText }

/-- `ClickableImageLabel::mousePressEvent` (MainWindow.cpp 36-42): the `clicked` signals it
emits. -/
def ClickableImageLabel.mousePressEvent (l : ClickableImageLabel) (button : MouseButton) :
    List Clicked :=
  if button = MouseButton.LeftButton then [⟨l.m_imagePath, l.m_timestamp, l.m_logText⟩]
  else []

/-- An item of `m_imageGridLayout`: a placeholder label added with
`addWidget(label, row, col, rowSpan, colSpan)`, or the container of one image (its clickable
label and the text of its time label) added with `addWidget(container, row, col)`. -/
inductive GridItem where
  | placeholder (text : String) (row col rowSpan colSpan : Nat)
  | imageCell (imageLabel : ClickableImageLabel) (timeLabel : String) (row col : Nat)
deriving DecidableEq, Repr

/-- The clickable label of a grid item, if it is an image cell. -/
def GridItem.imageLabel? : GridItem → Option ClickableImageLabel
  | GridItem.imageCell imageLabel _ _ _ => some imageLabel
  | GridItem.placeholder _ _ _ _ _ => none

/-- `MainWindow::clearImageGrid` (MainWindow.cpp 653-660): items are taken from the front of
the layout and deleted until none is left. -/
def clearImageGrid : List GridItem → List GridItem
  | [] => []
  | _ :: rest => clearImageGrid rest

/-- The label `displayImages` builds for one image (MainWindow.cpp 678-689); `pixmapLoads`
tells whether `QPixmap::load` succeeds for a path. -/
def imageLabelFor (pixmapLoads : String → Bool) (imageData : ImageData) :
    ClickableImageLabel :=
  let imageLabel := ClickableImageLabel.new.setImageData imageData.imagePath
    imageData.timestamp imageData.logText
  if pixmapLoads imageData.imagePath then
    { imageLabel with content := LabelContent.pixmap imageData.imagePath }
  else { imageLabel with content := LabelContent.text "이미지 로드 실패" }

/-- The `for` loop of `MainWindow::displayImages` (MainWindow.cpp 674-719), started with the
current `row` and `col`: the items it adds, in order. -/
def displayImagesLoop (pixmapLoads : String → Bool) :
    List ImageData → Nat → Nat → List GridItem
  | [], _, _ => []
  | imageData :: rest, row, col =>
    GridItem.imageCell (imageLabelFor pixmapLoads imageData) imageData.timestamp row col ::
      (if col + 1 ≥ 2 then displayImagesLoop pixmapLoads rest (row + 1) 0
       else displayImagesLoop pixmapLoads rest row (col + 1))

/-- `MainWindow::displayImages` (MainWindow.cpp 662-722): the grid afterwards. -/
def displayImages (pixmapLoads : String → Bool) (grid : List GridItem)
    (images : List ImageData) : List GridItem :=
  let cleared := clearImageGrid grid
  if images.isEmpty then
    cleared ++ [GridItem.placeholder "해당 시간대에 캡처된 이미지가 없습니다." 0 0 1 2]
  else cleared ++ displayImagesLoop pixmapLoads images 0 0

/-- A `QTimer`: its configuration and whether it is running. -/
structure QTimer where
  singleShot : Bool
  interval : Int
  active : Bool
deriving DecidableEq, Repr

/-- The part of `MainWindow` that the image-request path reads and writes: the request
timeout timer, `m_isConnected`, whether `m_requestButton` is enabled, and the items of the
image grid. -/
structure CapturedImages where
  m_requestTimeoutTimer : QTimer
  m_isConnected : Bool
  requestButtonEnabled : Bool
  grid : List GridItem
deriving DecidableEq, Repr

/-- The timer as `MainWindow::setupNetworkConnection` creates and configures it
(MainWindow.cpp 638-642): `setSingleShot(true)`, `setInterval(30000)`, not started. -/
def setupNetworkConnection_requestTimeoutTimer : QTimer :=
  { singleShot := true, interval := 30000, active := false }

/-- The image-request state as the constructor leaves it: `m_isConnected(false)`, the button
of `setupCapturedImageTab` enabled, its placeholder in the grid (MainWindow.cpp 584-587), the
timer of `setupNetworkConnection`. -/
def CapturedImages.init : CapturedImages :=
  { m_requestTimeoutTimer := setupNetworkConnection_requestTimeoutTimer
    m_isConnected := false
    requestButtonEnabled := true
    grid := [GridItem.placeholder
      "이미지 요청 버튼을 눌러 해당 시간대의 이미지를 불러오세요." 0 0 1 2] }

/-- `MainWindow::onImagesReceived` (MainWindow.cpp 979-990). -/
def onImagesReceived (pixmapLoads : String → Bool) (s : CapturedImages)
    (images : List ImageData) : CapturedImages :=
  let timer :=
    if s.m_requestTimeoutTimer.active then { s.m_requestTimeoutTimer with active := false }
    else s.m_requestTimeoutTimer
  { s with
      m_requestTimeoutTimer := timer
      grid := displayImages pixmapLoads s.grid images
      requestButtonEnabled := true }

/-- `MainWindow::onRequestTimeout` (MainWindow.cpp 1010-1022): the state afterwards and what
the user is shown. -/
def onRequestTimeout (s : CapturedImages) : CapturedImages × List Effect :=
  ({ s with requestButtonEnabled := s.m_isConnected },
   [Effect.qDebug "이미지 요청 타임아웃 (60초)",
    Effect.messageBox "요청 타임아웃"
      "서버에서 60초 내에 응답이 없습니다.\n서버 상태와 네트워크 연결을 확인하고 다시 시도해주세요."])

/-- The expiry of the request timeout timer, whose `timeout` signal is connected to
`onRequestTimeout` (MainWindow.cpp 642): a timer that is not running does not fire; a
single-shot timer stops when it fires. The result is the state afterwards and whether
`onRequestTimeout` ran. -/
def requestTimerExpiry (s : CapturedImages) : CapturedImages × Bool :=
  if s.m_requestTimeoutTimer.active then
    let timer :=
      if s.m_requestTimeoutTimer.singleShot then
        { s.m_requestTimeoutTimer with active := false }
      else s.m_requestTimeoutTimer
    ((onRequestTimeout { s with m_requestTimeoutTimer := timer }).1, true)
  else (s, false)

/-- The operations of `MainWindow` defined in MainWindow.cpp that can run once the window is
constructed (slots, handlers and the public setter), and the expiry of the request timeout
timer. Arguments are kept only where the image-request state depends on them. -/
inductive WindowOp where
  | setTcpCommunicator
  | onDrawButtonClicked
  | onNetworkConfigClicked
  | onVideoStreamClicked
  | sendMultipleLineCoordinates
  | sendSingleLineCoordinates
  | sendCategorizedCoordinates
  | onDateChanged
  | onHourChanged
  | onDateButtonClicked
  | onCalendarDateSelected
  | onHourComboChanged
  | onStreamingButtonClicked
  | onRequestImagesClicked
  | onTcpConnected
  | onTcpDisconnected
  | onTcpError
  | onTcpDataReceived
  | onTcpPacketReceived
  | onImagesReceived (images : List ImageData)
  | onImageClicked
  | updateLogDisplay
  | onStreamError
  | onCoordinatesConfirmed
  | onStatusUpdated
  | requestTimerElapsed
deriving DecidableEq, Repr

/-- The effect of one operation on the image-request state, and whether it ran
`onRequestTimeout`. `onRequestImagesClicked` leaves the state alone: its
`m_requestTimeoutTimer->start()` is commented out (MainWindow.cpp 918-920). The operations
that mention neither the timer, `m_isConnected`, `m_requestButton` nor the grid leave the
state as it is. -/
def CapturedImages.step (pixmapLoads : String → Bool) (s : CapturedImages) :
    WindowOp → CapturedImages × Bool
  | WindowOp.onTcpConnected =>
    ({ s with m_isConnected := true, requestButtonEnabled := true }, false)
  | WindowOp.onTcpDisconnected =>
    ({ s with m_isConnected := false, requestButtonEnabled := false }, false)
  | WindowOp.onTcpError => ({ s with requestButtonEnabled := false }, false)
  | WindowOp.onImagesReceived images => (onImagesReceived pixmapLoads s images, false)
  | WindowOp.requestTimerElapsed => requestTimerExpiry s
  | _ => (s, false)

/-- The image-request state after a sequence of operations, and how many times
`onRequestTimeout` ran on the way. -/
def CapturedImages.run (pixmapLoads : String → Bool) :
    CapturedImages → List WindowOp → CapturedImages × Nat
  | s, [] => (s, 0)
  | s, op :: ops =>
    let r := CapturedImages.step pixmapLoads s op
    let rest := CapturedImages.run pixmapLoads r.1 ops
    (rest.1, (if r.2 then 1 else 0) + rest.2)

/-! ## More senders of `MainWindow` -/

/-- A `QPoint`. -/
structure QPoint where
  x : Int
  y : Int
deriving DecidableEq, Repr

/-- `MainWindow::sendMultipleLineCoordinates` (MainWindow.cpp 808-827). The value returned by
`sendLineCoordinates` is not used. -/
def sendMultipleLineCoordinates (m_tcpCommunicator : Option Nat) (comm : Communicator)
    (lines : List (QPoint × QPoint)) : List Effect :=
  if connectedGuard m_tcpCommunicator comm then
    (lines.flatMap fun line =>
      [Effect.sendLineCoordinates line.1.x line.1.y line.2.x line.2.y,
       Effect.qDebug "기준선 %1 좌표 전송 성공:"]) ++
    [Effect.messageBox "전송 완료"
      (toString lines.length ++ "개의 기준선 좌표가 서버로 전송되었습니다.")]
  else
    [Effect.qDebug "TCP 연결이 없어 좌표 전송 실패",
     Effect.messageBox "전송 실패" "서버에 연결되어 있지 않습니다."]

/-- `MainWindow::sendSingleLineCoordinates` (MainWindow.cpp 829-841). -/
def sendSingleLineCoordinates (m_tcpCommunicator : Option Nat) (comm : Communicator)
    (x1 y1 x2 y2 : Int) : List Effect :=
  if connectedGuard m_tcpCommunicator comm then
    [Effect.sendLineCoordinates x1 y1 x2 y2, Effect.qDebug "기준선 좌표 전송 성공:"]
  else
    [Effect.qDebug "TCP 연결이 없어 좌표 전송 실패",
     Effect.messageBox "전송 실패" "서버에 연결되어 있지 않습니다."]

/-- `MainWindow::onRequestImagesClicked` (MainWindow.cpp 903-926); `dateString` is the
selected date formatted as `yyyy-MM-dd` and `selectedHour` the data of the hour combo box. -/
def onRequestImagesClicked (m_tcpCommunicator : Option Nat) (comm : Communicator)
    (dateString : String) (selectedHour : Int) : List Effect :=
  if !connectedGuard m_tcpCommunicator comm then
    [Effect.messageBox "연결 오류"
      "서버에 연결되어 있지 않습니다.\n네트워크 설정을 확인해주세요."]
  else
    [Effect.requestImageData dateString selectedHour, Effect.qDebug "JSON 이미지 요청:"]

/-! ## Clicks on the video widget (`MainWindow::setupLiveVideoTab`) -/

/-- What a click on the video widget can do. -/
inductive VideoEffect where
  | stopStream
  | showOverlay
  | messageBox (title : String) (text : String)
  | createLineDrawingDialog
  | execLineDrawingDialog
deriving DecidableEq, Repr

/-- The state a click on the video widget reads and writes: `isStreaming()` of the video
widget and whether `m_lineDrawingDialog` has been created. -/
structure VideoTab where
  isStreaming : Bool
  m_lineDrawingDialog : Bool
deriving DecidableEq, Repr

/-- The first handler connected to `VideoStreamWidget::clicked` (MainWindow.cpp 326-331).
`VideoStreamWidget` is not in the sources; `streamingAfterStop` is the value of
`isStreaming()` once `stopStream()` has returned. -/
def clickedStopHandler (streamingAfterStop : Bool) (v : VideoTab) :
    VideoTab × List VideoEffect :=
  if v.isStreaming then
    ({ v with isStreaming := streamingAfterStop },
     [VideoEffect.stopStream, VideoEffect.showOverlay])
  else (v, [])

/-- `MainWindow::onVideoStreamClicked` (MainWindow.cpp 752-806), the second handler connected
to `VideoStreamWidget::clicked` (MainWindow.cpp 348). -/
def onVideoStreamClicked (v : VideoTab) : VideoTab × List VideoEffect :=
  if !v.isStreaming then
    (v, [VideoEffect.messageBox "안내" "먼저 스트리밍을 시작해주세요."])
  else if !v.m_lineDrawingDialog then
    ({ v with m_lineDrawingDialog := true },
     [VideoEffect.createLineDrawingDialog, VideoEffect.execLineDrawingDialog])
  else (v, [VideoEffect.execLineDrawingDialog])

/-- One emission of `VideoStreamWidget::clicked`: the two handlers run in the order in which
they were connected. -/
def videoStreamWidgetClicked (streamingAfterStop : Bool) (v : VideoTab) :
    VideoTab × List VideoEffect :=
  let first := clickedStopHandler streamingAfterStop v
  let second := onVideoStreamClicked first.1
  (second.1, first.2 ++ second.2)

/-- Lines used in examples. -/
def twoLines : List (QPoint × QPoint) := [(⟨1, 2⟩, ⟨3, 4⟩), (⟨5, 6⟩, ⟨7, 8⟩)]

/-- Images used in examples. -/
def threeImages : List ImageData :=
  [⟨"a.jpg", "10:00", "car", "vehicle", "Left"⟩, ⟨"b.jpg", "10:05", "bus", "vehicle", "Right"⟩,
   ⟨"c.jpg", "10:09", "man", "person", "Left"⟩]

/-- Whether a signal and a handler form one of the eight pairs that `setTcpCommunicator`
connects (MainWindow.cpp 155-181). -/
def standardPair : Signal → Slot → Bool
  | Signal.connected, Slot.onTcpConnected => true
  | Signal.disconnected, Slot.onTcpDisconnected => true
  | Signal.errorOccurred, Slot.onTcpError => true
  | Signal.messageReceived, Slot.onTcpDataReceived => true
  | Signal.imagesReceived, Slot.onImagesReceived => true
  | Signal.coordinatesConfirmed, Slot.onCoordinatesConfirmed => true
  | Signal.statusUpdated, Slot.onStatusUpdated => true
  | Signal.perpendicularLineConfirmed, Slot.perpendicularLineConfirmedLambda => true
  | _, _ => false

/-! ## Theorems -/

/-- Draining a buffer that is a prefix of a stream of frames yields the frames that lie
fully inside the prefix and leaves a strict prefix of the next frame. -/
theorem drain_prefix_of_frames {M : Type} (extract : List UInt8 → Extraction M)
    (hempty : extract [] = Extraction.incomplete) :
    ∀ (frames : List (List UInt8 × M)), (∀ f ∈ frames, IsFrame extract f.1 f.2) →
    ∀ (pre post : List UInt8) (fuel : Nat),
      pre ++ post = (frames.map Prod.fst).flatten → pre.length < fuel →
      ∃ k t, drain extract fuel pre
            = some ((frames.take k).map (fun f => Inbound.decoded f.2), t) ∧
          t ++ post = ((frames.drop k).map Prod.fst).flatten ∧
          (∀ f rest, frames.drop k = f :: rest → t.length < f.1.length) := by
  intro frames
  induction frames with
  | nil =>
    intro _ pre post fuel hcat hfuel
    simp at hcat
    obtain ⟨rfl, rfl⟩ := hcat
    refine ⟨0, [], ?_, by simp, by simp⟩
    cases fuel with
    | zero => simp at hfuel
    | succ n => simp [drain, hempty]
  | cons f fs ih =>
    intro hwf pre post fuel hcat hfuel
    have hf : IsFrame extract f.1 f.2 := hwf f (by simp)
    have hfs : ∀ g ∈ fs, IsFrame extract g.1 g.2 := fun g hg => hwf g (by simp [hg])
    obtain ⟨hne, hcomp, hinc⟩ := hf
    have hlen : 0 < f.1.length := List.length_pos.mpr hne
    simp only [List.map_cons, List.flatten_cons] at hcat
    cases fuel with
    | zero => simp at hfuel
    | succ n =>
      by_cases hlt : pre.length < f.1.length
      · -- the first frame has not fully arrived
        have hpre : pre <+: f.1 := by
          have h1 : pre <+: pre ++ post := List.prefix_append pre post
          rw [hcat] at h1
          exact List.prefix_of_prefix_length_le h1 (List.prefix_append _ _) (by omega)
        have hneq : pre ≠ f.1 := by
          intro h
          rw [h] at hlt
          omega
        refine ⟨0, pre, ?_, by simpa using hcat, ?_⟩
        · simp [drain, hinc pre hpre hneq]
        · intro g rest hg
          simp at hg
          rw [← hg.1]
          exact hlt
      · -- the first frame lies fully inside the prefix
        have hpre : f.1 <+: pre := by
          have h1 : pre <+: pre ++ post := List.prefix_append pre post
          rw [hcat] at h1
          exact List.prefix_of_prefix_length_le (List.prefix_append _ _) h1 (by omega)
        obtain ⟨c, rfl⟩ := hpre
        rw [List.append_assoc] at hcat
        have hcat2 : c ++ post = (fs.map Prod.fst).flatten := List.append_cancel_left hcat
        have hfuel2 : c.length < n := by
          simp only [List.length_append] at hfuel
          omega
        obtain ⟨k, t, hd, ht, hstrict⟩ := ih hfs c post n hcat2 hfuel2
        refine ⟨k + 1, t, ?_, by simpa using ht, ?_⟩
        · simp [drain, hcomp c, hd]
        · intro g rest hg
          exact hstrict g rest (by simpa using hg)

/-- Delivering fragments whose bytes, after what is already buffered, make up a stream of
frames yields exactly those frames and leaves the buffer empty. -/
theorem deliver_frames {M : Type} (extract : List UInt8 → Extraction M)
    (hempty : extract [] = Extraction.incomplete) :
    ∀ (frags : List (List UInt8)) (frames : List (List UInt8 × M)) (buf : List UInt8),
      (∀ f ∈ frames, IsFrame extract f.1 f.2) →
      buf ++ frags.flatten = (frames.map Prod.fst).flatten →
      (∀ f rest, frames = f :: rest → buf.length < f.1.length) →
      deliver extract buf frags = some (frames.map (fun f => Inbound.decoded f.2), []) := by
  intro frags
  induction frags with
  | nil =>
    intro frames buf hwf hcat hstrict
    simp only [List.flatten_nil, List.append_nil] at hcat
    cases frames with
    | nil =>
      simp at hcat
      simp [deliver, hcat]
    | cons f rest =>
      exfalso
      have h := hstrict f rest rfl
      rw [hcat] at h
      simp at h
  | cons g gs ih =>
    intro frames buf hwf hcat hstrict
    simp only [List.flatten_cons] at hcat
    rw [← List.append_assoc] at hcat
    obtain ⟨k, t, hd, ht, hs⟩ :=
      drain_prefix_of_frames extract hempty frames hwf (buf ++ g) gs.flatten
        ((buf ++ g).length + 1) hcat (Nat.lt_succ_self _)
    have hwf2 : ∀ f ∈ frames.drop k, IsFrame extract f.1 f.2 :=
      fun f hf => hwf f (List.mem_of_mem_drop hf)
    have hrest := ih (frames.drop k) t hwf2 ht hs
    simp only [deliver, onReadyRead, hd, hrest]
    rw [← List.map_append, List.take_append_drop]

/-- A newline-terminated line without inner newline that parses is a frame of the
newline-delimited framing. -/
theorem extractLine_isFrame {M : Type} (parse : List UInt8 → Option M)
    (payload : List UInt8) (m : M) (hnl : ∀ b ∈ payload, b ≠ 10)
    (hparse : parse payload = some m) :
    IsFrame (extractLine parse) (payload ++ [10]) m := by
  have hspan : ∀ (l s : List UInt8), (∀ b ∈ l, b ≠ 10) →
      (l ++ 10 :: s).takeWhile (fun b => b != 10) = l ∧
      (l ++ 10 :: s).dropWhile (fun b => b != 10) = 10 :: s := by
    intro l s hl
    induction l with
    | nil => simp [List.takeWhile, List.dropWhile]
    | cons a l ih =>
      have ha : a ≠ 10 := hl a (by simp)
      have hl2 : ∀ b ∈ l, b ≠ 10 := fun b hb => hl b (by simp [hb])
      have h := ih hl2
      simp [List.takeWhile_cons, List.dropWhile_cons, ha, h.1, h.2]
  have hspan2 : ∀ (l : List UInt8), (∀ b ∈ l, b ≠ 10) →
      l.takeWhile (fun b => b != 10) = l ∧ l.dropWhile (fun b => b != 10) = [] := by
    intro l hl
    constructor
    · rw [List.takeWhile_eq_self_iff]
      intro b hb
      simpa using hl b hb
    · rw [List.dropWhile_eq_nil_iff]
      intro b hb
      simpa using hl b hb
  refine ⟨by simp, ?_, ?_⟩
  · intro s
    simp [extractLine, (hspan payload s hnl).1, (hspan payload s hnl).2, hparse]
  · intro p hp hne
    have hp2 : p <+: payload := by
      rcases List.prefix_concat_iff.mp (by simpa using hp) with h | h
      · exact absurd (by simpa using h) hne
      · exact h
    have hpn : ∀ b ∈ p, b ≠ 10 := fun b hb => hnl b (hp2.subset hb)
    simp [extractLine, (hspan2 p hpn).1, (hspan2 p hpn).2]

/-- C1: for every framing and every sequence of byte fragments whose concatenation is the
wire form of N well-formed messages, delivering the fragments one read at a time yields
exactly the N decoded messages, in order, and leaves the buffer empty; this is the same
result as delivering the whole concatenation in a single read. -/
theorem fragmented_delivery_eq_single_read {M : Type} (extract : List UInt8 → Extraction M)
    (frames : List (List UInt8 × M)) (frags : List (List UInt8))
    (hempty : extract [] = Extraction.incomplete)
    (hwf : ∀ f ∈ frames, IsFrame extract f.1 f.2)
    (hcat : frags.flatten = (frames.map Prod.fst).flatten) :
    deliver extract [] frags = some (frames.map (fun f => Inbound.decoded f.2), []) ∧
      (frames.map (fun f => Inbound.decoded f.2)).length = frames.length ∧
      deliver extract [] frags = deliver extract [] [frags.flatten] := by
  have hstart : ∀ f rest, frames = f :: rest → ([] : List UInt8).length < f.1.length := by
    intro f rest hf
    have h := (hwf f (by simp [hf])).1
    exact List.length_pos.mpr h
  have h1 := deliver_frames extract hempty frags frames [] hwf (by simpa using hcat) hstart
  have h2 := deliver_frames extract hempty [frags.flatten] frames [] hwf
    (by simpa using hcat) hstart
  exact ⟨h1, by simp, by rw [h1, h2]⟩

/-- Witness for C1: two newline-terminated messages arriving in three fragments that cut
through both of them. -/
theorem fragmented_delivery_eq_single_read_witness :
    deliver (extractLine fun l => some l) [] [[1], [2, 10, 3], [10]]
        = some ([Inbound.decoded [1, 2], Inbound.decoded [3]], []) ∧
      deliver (extractLine fun l => some l) [] [[1], [2, 10, 3], [10]]
        = deliver (extractLine fun l => some l) [] [[1, 2, 10, 3, 10]] := by
  have h := fragmented_delivery_eq_single_read (extractLine fun l => some l)
    [([1, 2, 10], [1, 2]), ([3, 10], [3])] [[1], [2, 10, 3], [10]] rfl
    (by
      intro f hf
      simp only [List.mem_cons, List.mem_singleton, List.not_mem_nil, or_false] at hf
      rcases hf with rfl | rfl
      · exact extractLine_isFrame _ [1, 2] [1, 2] (by decide) rfl
      · exact extractLine_isFrame _ [3] [3] (by decide) rfl)
    (by decide)
  exact ⟨h.1, h.2.2⟩

/-- C2: for every sender of the communicator and every argument, when the communicator is
not connected the call returns `false` and leaves the communicator as it was; in particular
no byte is written to the socket. -/
theorem send_not_connected (doc : QJsonDocument) (types : OutboundTypes)
    (c : TcpCommunicator) (call : SenderCall) (h : c.isConnectedToServer = false) :
    (c.send doc types call).1 = false ∧ (c.send doc types call).2 = c ∧
      (c.send doc types call).2.written = c.written := by
  cases call <;>
    simp [TcpCommunicator.send, TcpCommunicator.sendLineCoordinates,
      TcpCommunicator.sendDetectionLine, TcpCommunicator.sendMultipleDetectionLines,
      TcpCommunicator.sendCategorizedLineCoordinates, TcpCommunicator.sendRoadLine,
      TcpCommunicator.sendMultipleRoadLines, TcpCommunicator.sendPerpendicularLine,
      TcpCommunicator.sendJsonMessage, h]

/-- Witness for C2: a fresh, still disconnected communicator asked to send a batch of three
road lines returns `false` and has written nothing. -/
theorem send_not_connected_witness :
    ((TcpCommunicator.init false false true 3).send compactJson exampleTypes
        (SenderCall.sendMultipleRoadLines threeRoadLines)).1 = false ∧
      ((TcpCommunicator.init false false true 3).send compactJson exampleTypes
        (SenderCall.sendMultipleRoadLines threeRoadLines)).2.written = [] :=
  ⟨(send_not_connected compactJson exampleTypes (TcpCommunicator.init false false true 3)
      (SenderCall.sendMultipleRoadLines threeRoadLines) rfl).1,
    (send_not_connected compactJson exampleTypes (TcpCommunicator.init false false true 3)
      (SenderCall.sendMultipleRoadLines threeRoadLines) rfl).2.2⟩

/-- Every step of the connection manager keeps the configured maximum and keeps the attempt
counter at or below it. -/
theorem step_attempts_le_max (c : TcpCommunicator) (e : ConnectionEvent)
    (h : c.m_reconnectAttempts ≤ c.m_maxReconnectAttempts) :
    (c.step e).m_maxReconnectAttempts = c.m_maxReconnectAttempts ∧
      (c.step e).m_reconnectAttempts ≤ c.m_maxReconnectAttempts := by
  cases e <;>
    simp only [TcpCommunicator.step, TcpCommunicator.connectToServer,
      TcpCommunicator.disconnectFromServer, TcpCommunicator.setReconnectEnabled,
      TcpCommunicator.onConnected, TcpCommunicator.onSslEncrypted,
      TcpCommunicator.onSslErrors, TcpCommunicator.onError, TcpCommunicator.onDisconnected,
      TcpCommunicator.onConnectionTimeout, TcpCommunicator.attemptReconnection,
      TcpCommunicator.connectionEstablished, TcpCommunicator.scheduleRetry,
      TcpCommunicator.emit] <;>
    (repeat' split) <;> simp_all <;> omega

/-- Every run of the connection manager keeps the configured maximum and keeps the attempt
counter at or below it. -/
theorem run_attempts_le_max (events : List ConnectionEvent) :
    ∀ c : TcpCommunicator, c.m_reconnectAttempts ≤ c.m_maxReconnectAttempts →
      (c.run events).m_maxReconnectAttempts = c.m_maxReconnectAttempts ∧
        (c.run events).m_reconnectAttempts ≤ c.m_maxReconnectAttempts := by
  induction events with
  | nil => intro c h; exact ⟨rfl, h⟩
  | cons e es ih =>
    intro c h
    have hs := step_attempts_le_max c e h
    have hr := ih (c.step e) (by rw [hs.1]; exact hs.2)
    simp only [TcpCommunicator.run, List.foldl_cons] at hr ⊢
    rw [hs.1] at hr
    exact hr

/-- The scenario of §8 leaves the attempt counter at 1 whenever reconnection is enabled and
at least one retry is allowed. -/
theorem failTwiceSucceedFailOnce_attempts (useTls trustHost : Bool) (maxAttempts : Nat)
    (hmax : 1 ≤ maxAttempts) :
    ((TcpCommunicator.init useTls trustHost true maxAttempts).run
      failTwiceSucceedFailOnce).m_reconnectAttempts = 1 := by
  have h0 : 0 < maxAttempts := hmax
  by_cases h1 : 1 < maxAttempts <;> cases useTls <;>
    simp [failTwiceSucceedFailOnce, TcpCommunicator.run, TcpCommunicator.step,
      TcpCommunicator.init, TcpCommunicator.connectToServer, TcpCommunicator.onError,
      TcpCommunicator.attemptReconnection, TcpCommunicator.onConnectionTimeout,
      TcpCommunicator.onConnected, TcpCommunicator.onSslEncrypted,
      TcpCommunicator.connectionEstablished, TcpCommunicator.scheduleRetry,
      TcpCommunicator.emit, h0, h1]

/-- C3: in every state the connection manager reaches from a fresh communicator, the
reconnect-attempt counter is at most the configured maximum; once the counter has reached
the maximum no event schedules a further retry (the retry timer is running afterwards only if
it was running before); every transition into `Connected` leaves the counter at zero, and a
successful connection (`onConnected`, followed by the handshake when the endpoint uses TLS)
always ends `Connected` with the counter at zero; and after two failures, one success and
one more failure the counter is 1 (reconnection enabled, at least one retry allowed). -/
theorem reconnect_attempts_bounded (useTls trustHost reconnectEnabled : Bool)
    (maxAttempts : Nat) (events : List ConnectionEvent) :
    ((TcpCommunicator.init useTls trustHost reconnectEnabled maxAttempts).run
        events).m_reconnectAttempts ≤ maxAttempts ∧
      ((TcpCommunicator.init useTls trustHost reconnectEnabled maxAttempts).run
        events).m_maxReconnectAttempts = maxAttempts ∧
      (∀ (c : TcpCommunicator) (e : ConnectionEvent),
        c.m_maxReconnectAttempts ≤ c.m_reconnectAttempts →
        (c.step e).reconnectTimerActive = true → c.reconnectTimerActive = true) ∧
      (∀ (c : TcpCommunicator) (e : ConnectionEvent),
        (c.step e).state = ConnectionState.Connected →
        c.state ≠ ConnectionState.Connected → (c.step e).m_reconnectAttempts = 0) ∧
      (∀ c : TcpCommunicator,
        c.onConnected.onSslEncrypted.state = ConnectionState.Connected ∧
          c.onConnected.onSslEncrypted.m_reconnectAttempts = 0) ∧
      (reconnectEnabled = true → 1 ≤ maxAttempts →
        ((TcpCommunicator.init useTls trustHost reconnectEnabled maxAttempts).run
          failTwiceSucceedFailOnce).m_reconnectAttempts = 1) := by
  have hrun := run_attempts_le_max events
    (TcpCommunicator.init useTls trustHost reconnectEnabled maxAttempts)
    (by simp [TcpCommunicator.init])
  refine ⟨by simpa [TcpCommunicator.init] using hrun.2,
    by simpa [TcpCommunicator.init] using hrun.1, ?_, ?_, ?_, ?_⟩
  · intro c e hge
    cases e <;>
      simp only [TcpCommunicator.step, TcpCommunicator.connectToServer,
        TcpCommunicator.disconnectFromServer, TcpCommunicator.setReconnectEnabled,
        TcpCommunicator.onConnected, TcpCommunicator.onSslEncrypted,
        TcpCommunicator.onSslErrors, TcpCommunicator.onError,
        TcpCommunicator.onDisconnected, TcpCommunicator.onConnectionTimeout,
        TcpCommunicator.attemptReconnection, TcpCommunicator.connectionEstablished,
        TcpCommunicator.scheduleRetry, TcpCommunicator.emit] <;>
      (repeat' split) <;> simp_all <;> omega
  · intro c e
    cases e <;>
      simp only [TcpCommunicator.step, TcpCommunicator.connectToServer,
        TcpCommunicator.disconnectFromServer, TcpCommunicator.setReconnectEnabled,
        TcpCommunicator.onConnected, TcpCommunicator.onSslEncrypted,
        TcpCommunicator.onSslErrors, TcpCommunicator.onError,
        TcpCommunicator.onDisconnected, TcpCommunicator.onConnectionTimeout,
        TcpCommunicator.attemptReconnection, TcpCommunicator.connectionEstablished,
        TcpCommunicator.scheduleRetry, TcpCommunicator.emit] <;>
      (repeat' split) <;> simp_all
  · intro c
    cases hT : c.useTls <;>
      simp [TcpCommunicator.onConnected, TcpCommunicator.onSslEncrypted,
        TcpCommunicator.connectionEstablished, TcpCommunicator.emit, hT]
  · intro hen hmax
    subst hen
    exact failTwiceSucceedFailOnce_attempts useTls trustHost maxAttempts hmax

/-- Witness for C3: with reconnection enabled and three retries allowed, the counter after
two failures, one success and one more failure is 1. -/
theorem reconnect_attempts_bounded_witness :
    ((TcpCommunicator.init false false true 3).run
      failTwiceSucceedFailOnce).m_reconnectAttempts = 1 :=
  (reconnect_attempts_bounded false false true 3 []).2.2.2.2.2 rfl (by decide)

/-- C4: when the communicator is set and connected, `sendCategorizedCoordinates` issues
exactly these calls, in this order: one `sendMultipleRoadLines` carrying the whole road-line
list unchanged if that list is not empty, then one `sendMultipleDetectionLines` carrying the
whole detection-line list unchanged if that list is not empty; no call is made per line. -/
theorem sendCategorizedCoordinates_batches (p : Nat) (comm : Communicator)
    (roadLines : List RoadLineData) (detectionLines : List DetectionLineData)
    (hconn : comm.isConnectedToServer = true) :
    Effect.calls (sendCategorizedCoordinates (some p) comm roadLines detectionLines)
      = (if roadLines.isEmpty then [] else [Effect.sendMultipleRoadLines roadLines]) ++
        (if detectionLines.isEmpty then []
          else [Effect.sendMultipleDetectionLines detectionLines]) := by
  cases roadLines <;> cases detectionLines <;>
    simp [sendCategorizedCoordinates, connectedGuard, hconn, Effect.calls, Effect.isCall,
      List.filter_cons]
  split <;> split <;> simp [Effect.isCall]

/-- Witness for C4: three road lines and no detection line go out as one road-line batch. -/
theorem sendCategorizedCoordinates_batches_witness :
    Effect.calls (sendCategorizedCoordinates (some 1) acceptingCommunicator threeRoadLines [])
      = [Effect.sendMultipleRoadLines threeRoadLines] :=
  sendCategorizedCoordinates_batches 1 acceptingCommunicator threeRoadLines [] rfl

/-- Reading back the JSON message of a road-line batch gives the batch. -/
theorem decodeRoadLines_encodeRoadLines (types : OutboundTypes)
    (roadLines : List RoadLineData) :
    decodeRoadLines (encodeRoadLines types roadLines) = roadLines := by
  have hone : ∀ d : RoadLineData, decodeRoadLine (encodeRoadLine d) = d := by
    intro d
    simp [decodeRoadLine, encodeRoadLine, QJsonValue.value, List.lookup, QJsonValue.toInt]
  simp only [decodeRoadLines, encodeRoadLines, createBaseMessage, QJsonValue.value]
  have hdata : List.lookup "data"
      [("type", QJsonValue.string types.multipleRoadLines),
       ("data", QJsonValue.array (roadLines.map encodeRoadLine))]
      = some (QJsonValue.array (roadLines.map encodeRoadLine)) := by
    simp [List.lookup]
  rw [hdata]
  have hid : decodeRoadLine ∘ encodeRoadLine = id := funext hone
  simp only [Option.getD_some, QJsonValue.toArray, List.map_map, hid, List.map_id]

/-- The byte of a decimal digit is recognised as a digit and gives the digit back. -/
theorem digit_byte (d : Nat) (hd : d < 10) :
    isDigit (48 + d).toUInt8 = true ∧ (48 + d).toUInt8.toNat - 48 = d := by
  interval_cases d <;> exact ⟨by decide, by decide⟩

/-- Text appended to printed digits can be appended to the accumulator instead. -/
theorem printDigits_append (fuel : Nat) :
    ∀ (n : Nat) (acc rest : List UInt8),
      printDigits fuel n acc ++ rest = printDigits fuel n (acc ++ rest) := by
  induction fuel with
  | zero => intro n acc rest; simp [printDigits]
  | succ fuel ih =>
    intro n acc rest
    simp only [printDigits]
    split
    · simp
    · rw [ih]; simp

/-- Printed digits start with a digit. -/
theorem printDigits_head (fuel : Nat) :
    ∀ (n : Nat) (acc : List UInt8), n < fuel →
      ∃ b tl, printDigits fuel n acc = b :: tl ∧ isDigit b = true := by
  induction fuel with
  | zero => intro n acc h; omega
  | succ fuel ih =>
    intro n acc h
    simp only [printDigits]
    split
    · rename_i hn
      exact ⟨_, _, rfl, (digit_byte n hn).1⟩
    · exact ih (n / 10) _ (by omega)

/-- Reading back printed digits gives the number and goes on with what follows. -/
theorem parseDigits_printDigits (fuel : Nat) :
    ∀ (n : Nat) (acc : List UInt8), n < fuel →
      parseDigits (printDigits fuel n acc) 0 = parseDigits acc n := by
  induction fuel with
  | zero => intro n acc h; omega
  | succ fuel ih =>
    intro n acc h
    simp only [printDigits]
    split
    · rename_i hn
      have hb := digit_byte n hn
      simp [parseDigits, hb.1, hb.2]
    · rename_i hn
      rw [ih (n / 10) _ (by omega)]
      have hb := digit_byte (n % 10) (Nat.mod_lt _ (by omega))
      simp only [parseDigits, hb.1, hb.2, if_true]
      congr 1
      omega

/-- Reading digits stops at a byte that is no digit. -/
theorem parseDigits_stop (d : UInt8) (rest : List UInt8) (n : Nat) (hd : isDigit d = false) :
    parseDigits (d :: rest) n = (n, d :: rest) := by
  simp [parseDigits, hd]

/-- A printed integer followed by a byte that is no digit is read back as that integer. -/
theorem parseValue_printInt (fuel : Nat) (n : Int) (d : UInt8) (rest : List UInt8)
    (hd : isDigit d = false) :
    parseValue (fuel + 1) (printInt n ++ d :: rest) = some (QJsonValue.int n, d :: rest) := by
  cases n with
  | ofNat k =>
    simp only [printInt]
    rw [printDigits_append]
    obtain ⟨b, tl, hb, hdig⟩ := printDigits_head (k + 1) k ([] ++ d :: rest) (by omega)
    have hparse := parseDigits_printDigits (k + 1) k ([] ++ d :: rest) (by omega)
    rw [hb] at hparse
    rw [hb]
    simp only [parseValue, hdig, if_true, hparse, List.nil_append, parseDigits_stop d rest k hd]
    rfl
  | negSucc k =>
    simp only [printInt, List.cons_append]
    rw [printDigits_append]
    obtain ⟨b, tl, hb, hdig⟩ := printDigits_head (k + 2) (k + 1) ([] ++ d :: rest) (by omega)
    have hparse := parseDigits_printDigits (k + 2) (k + 1) ([] ++ d :: rest) (by omega)
    rw [hb] at hparse
    rw [hb]
    have h45 : isDigit 45 = false := by decide
    simp only [parseValue, h45, hparse, List.nil_append, parseDigits_stop d rest (k + 1) hd,
      List.head?_cons, Option.map_some', hdig, if_true]
    simp [Int.negSucc_eq]

/-- An escaped string body is read back, up to the closing quote, as the bytes that were
escaped. -/
theorem parseString_body (l : List UInt8) :
    ∀ (acc rest : List UInt8),
      parseString (escapeBytes l ++ 34 :: rest) acc false
        = some (asciiString (acc.reverse ++ l), rest) := by
  induction l with
  | nil => intro acc rest; simp [escapeBytes, parseString]
  | cons a l ih =>
    intro acc rest
    have h := ih (a :: acc) rest
    by_cases ha : a = 34 ∨ a = 92
    · rcases ha with rfl | rfl
      · have h92 : (92 : UInt8) ≠ 34 := by decide
        simpa [escapeBytes, parseString, h92] using h
      · have h92 : (92 : UInt8) ≠ 34 := by decide
        simpa [escapeBytes, parseString, h92] using h
    · have h1 : a ≠ 34 := fun e => ha (Or.inl e)
      have h2 : a ≠ 92 := fun e => ha (Or.inr e)
      simpa [escapeBytes, parseString, h1, h2] using h

/-- A member with a value that is read back, followed by a comma and more members that are
read back, is read back as the first of the members. -/
theorem parseMembers_cons (fuel : Nat) (k : String) (valueText tail : List UInt8)
    (v : QJsonValue) (ms : List (String × QJsonValue)) (rest : List UInt8)
    (hv : parseValue fuel (valueText ++ 44 :: tail) = some (v, 44 :: tail))
    (htail : parseMembers fuel tail = some (ms, rest)) :
    parseMembers (fuel + 1)
        (34 :: (escapeBytes (asciiBytes k) ++ 34 :: 58 :: (valueText ++ 44 :: tail)))
      = some ((asciiString (asciiBytes k), v) :: ms, rest) := by
  simp [parseMembers, parseString_body (asciiBytes k), hv, htail]

/-- A member with a value that is read back, followed by the closing brace, is read back as
the last member. -/
theorem parseMembers_last (fuel : Nat) (k : String) (valueText rest : List UInt8)
    (v : QJsonValue)
    (hv : parseValue fuel (valueText ++ 125 :: rest) = some (v, 125 :: rest)) :
    parseMembers (fuel + 1)
        (34 :: (escapeBytes (asciiBytes k) ++ 34 :: 58 :: (valueText ++ 125 :: rest)))
      = some ([(asciiString (asciiBytes k), v)], rest) := by
  simp [parseMembers, parseString_body (asciiBytes k), hv]

/-- An opening brace followed by members that are read back is read back as an object. -/
theorem parseValue_object (fuel : Nat) (body : List UInt8) (ms : List (String × QJsonValue))
    (rest : List UInt8) (hbody : body.head? ≠ some 125)
    (h : parseMembers fuel body = some (ms, rest)) :
    parseValue (fuel + 1) (123 :: body) = some (QJsonValue.object ms, rest) := by
  have h1 : isDigit 123 = false := by decide
  simp [parseValue, h1, hbody, h]

/-- An opening bracket followed by items that are read back is read back as an array. -/
theorem parseValue_array (fuel : Nat) (body : List UInt8) (items : List QJsonValue)
    (rest : List UInt8) (hbody : body.head? ≠ some 93)
    (h : parseItems fuel body = some (items, rest)) :
    parseValue (fuel + 1) (91 :: body) = some (QJsonValue.array items, rest) := by
  have h1 : isDigit 91 = false := by decide
  simp [parseValue, h1, hbody, h]

/-- The text of a road line, with what follows it. -/
theorem printJson_encodeRoadLine (d : RoadLineData) (rest : List UInt8) :
    printJson (encodeRoadLine d) ++ rest
      = 123 :: 34 :: (escapeBytes (asciiBytes "index") ++ 34 :: 58 :: (printInt d.index ++ 44 ::
          34 :: (escapeBytes (asciiBytes "matrixNum1") ++ 34 :: 58 :: (printInt d.matrixNum1 ++ 44 ::
          34 :: (escapeBytes (asciiBytes "x1") ++ 34 :: 58 :: (printInt d.x1 ++ 44 ::
          34 :: (escapeBytes (asciiBytes "y1") ++ 34 :: 58 :: (printInt d.y1 ++ 44 ::
          34 :: (escapeBytes (asciiBytes "matrixNum2") ++ 34 :: 58 :: (printInt d.matrixNum2 ++ 44 ::
          34 :: (escapeBytes (asciiBytes "x2") ++ 34 :: 58 :: (printInt d.x2 ++ 44 ::
          34 :: (escapeBytes (asciiBytes "y2") ++ 34 :: 58 :: (printInt d.y2 ++ 125 :: rest))))))))))))))
      := by
  simp [encodeRoadLine, printJson, printMembers, List.append_assoc]

/-- The text of a road line is read back as the JSON object of the road line. -/
theorem parseValue_encodeRoadLine (f : Nat) (d : RoadLineData) (rest : List UInt8) :
    parseValue (f + 9) (printJson (encodeRoadLine d) ++ rest)
      = some (encodeRoadLine d, rest) := by
  have h44 : isDigit 44 = false := by decide
  have h125 : isDigit 125 = false := by decide
  rw [printJson_encodeRoadLine]
  have h7 := parseMembers_last (f + 1) "y2" (printInt d.y2) rest (QJsonValue.int d.y2)
    (parseValue_printInt f d.y2 125 rest h125)
  have h6 := parseMembers_cons (f + 2) "x2" (printInt d.x2) _ (QJsonValue.int d.x2) _ rest
    (parseValue_printInt (f + 1) d.x2 44 _ h44) h7
  have h5 := parseMembers_cons (f + 3) "matrixNum2" (printInt d.matrixNum2) _
    (QJsonValue.int d.matrixNum2) _ rest
    (parseValue_printInt (f + 2) d.matrixNum2 44 _ h44) h6
  have h4 := parseMembers_cons (f + 4) "y1" (printInt d.y1) _ (QJsonValue.int d.y1) _ rest
    (parseValue_printInt (f + 3) d.y1 44 _ h44) h5
  have h3 := parseMembers_cons (f + 5) "x1" (printInt d.x1) _ (QJsonValue.int d.x1) _ rest
    (parseValue_printInt (f + 4) d.x1 44 _ h44) h4
  have h2 := parseMembers_cons (f + 6) "matrixNum1" (printInt d.matrixNum1) _
    (QJsonValue.int d.matrixNum1) _ rest
    (parseValue_printInt (f + 5) d.matrixNum1 44 _ h44) h3
  have h1 := parseMembers_cons (f + 7) "index" (printInt d.index) _ (QJsonValue.int d.index) _
    rest (parseValue_printInt (f + 6) d.index 44 _ h44) h2
  have hkeys : asciiString (asciiBytes "index") = "index" ∧
      asciiString (asciiBytes "matrixNum1") = "matrixNum1" ∧
      asciiString (asciiBytes "x1") = "x1" ∧ asciiString (asciiBytes "y1") = "y1" ∧
      asciiString (asciiBytes "matrixNum2") = "matrixNum2" ∧
      asciiString (asciiBytes "x2") = "x2" ∧ asciiString (asciiBytes "y2") = "y2" := by
    decide
  obtain ⟨k1, k2, k3, k4, k5, k6, k7⟩ := hkeys
  rw [k1, k2, k3, k4, k5, k6, k7] at h1
  exact parseValue_object (f + 8) _ _ rest (by simp) h1

/-- A quoted string, its body escaped, is read back as a string. -/
theorem parseValue_string (fuel : Nat) (l rest : List UInt8) :
    parseValue (fuel + 1) (34 :: (escapeBytes l ++ 34 :: rest))
      = some (QJsonValue.string (asciiString l), rest) := by
  have h1 : isDigit 34 = false := by decide
  simp [parseValue, h1, parseString_body l]

/-- An item that is read back, followed by a comma and more items that are read back, is
read back as the first of the items. -/
theorem parseItems_cons (fuel : Nat) (itemText tail : List UInt8) (v : QJsonValue)
    (items : List QJsonValue) (rest : List UInt8)
    (hv : parseValue fuel (itemText ++ 44 :: tail) = some (v, 44 :: tail))
    (htail : parseItems fuel tail = some (items, rest)) :
    parseItems (fuel + 1) (itemText ++ 44 :: tail) = some (v :: items, rest) := by
  simp [parseItems, hv, htail]

/-- An item that is read back, followed by the closing bracket, is read back as the last
item. -/
theorem parseItems_last (fuel : Nat) (itemText rest : List UInt8) (v : QJsonValue)
    (hv : parseValue fuel (itemText ++ 93 :: rest) = some (v, 93 :: rest)) :
    parseItems (fuel + 1) (itemText ++ 93 :: rest) = some ([v], rest) := by
  simp [parseItems, hv]

/-- The text of a non-empty batch of road lines followed by the closing bracket is read back
as the JSON objects of the road lines. -/
theorem parseItems_roadLines (f : Nat) :
    ∀ (ds : List RoadLineData) (d : RoadLineData) (rest : List UInt8),
      parseItems (f + ds.length + 10)
          (printItems ((d :: ds).map encodeRoadLine) ++ 93 :: rest)
        = some ((d :: ds).map encodeRoadLine, rest) := by
  intro ds
  induction ds with
  | nil =>
    intro d rest
    have hv := parseValue_encodeRoadLine f d (93 :: rest)
    have h := parseItems_last (f + 9) _ rest _ hv
    simpa [printItems] using h
  | cons d2 ds ih =>
    intro d rest
    have hv : parseValue (f + ds.length + 10)
        (printJson (encodeRoadLine d) ++
          44 :: (printItems ((d2 :: ds).map encodeRoadLine) ++ 93 :: rest))
        = some (encodeRoadLine d,
            44 :: (printItems ((d2 :: ds).map encodeRoadLine) ++ 93 :: rest)) := by
      have h := parseValue_encodeRoadLine (f + ds.length + 1) d
        (44 :: (printItems ((d2 :: ds).map encodeRoadLine) ++ 93 :: rest))
      rwa [show f + ds.length + 1 + 9 = f + ds.length + 10 by omega] at h
    have h := parseItems_cons (f + ds.length + 10) _ _ _ _ rest hv (ih d2 rest)
    have hfuel : f + (d2 :: ds).length + 10 = f + ds.length + 10 + 1 := by
      simp only [List.length_cons]
      omega
    have htext : printItems ((d :: d2 :: ds).map encodeRoadLine) ++ 93 :: rest
        = printJson (encodeRoadLine d) ++
          44 :: (printItems ((d2 :: ds).map encodeRoadLine) ++ 93 :: rest) := by
      simp [printItems]
    rw [hfuel, htext]
    exact h

/-- The text of a batch of road lines takes at least one byte per road line. -/
theorem length_printItems_roadLines (ds : List RoadLineData) :
    ds.length ≤ (printItems (ds.map encodeRoadLine)).length := by
  induction ds with
  | nil => simp
  | cons d ds ih =>
    have h := printJson_encodeRoadLine d []
    simp only [List.append_nil] at h
    cases ds with
    | nil =>
      simp only [List.map_cons, List.map_nil, printItems, h]
      simp
    | cons d2 ds =>
      simp only [List.map_cons, printItems, h] at ih ⊢
      simp only [List.length_cons, List.length_append] at ih ⊢
      omega

/-- The text of the message of a road-line batch. -/
theorem printJson_encodeRoadLines (types : OutboundTypes) (roadLines : List RoadLineData) :
    printJson (encodeRoadLines types roadLines)
      = 123 :: 34 :: (escapeBytes (asciiBytes "type") ++ 34 :: 58 ::
          ((34 :: (escapeBytes (asciiBytes types.multipleRoadLines) ++ [34])) ++ 44 ::
          34 :: (escapeBytes (asciiBytes "data") ++ 34 :: 58 ::
          ((91 :: (printItems (roadLines.map encodeRoadLine) ++ [93])) ++ 125 :: [])))) := by
  simp [encodeRoadLines, createBaseMessage, printJson, printMembers]

/-- The text of a non-empty batch of road lines starts with an opening brace. -/
theorem head_printItems_roadLines (d : RoadLineData) (ds : List RoadLineData)
    (rest : List UInt8) :
    (printItems ((d :: ds).map encodeRoadLine) ++ rest).head? = some 123 := by
  cases ds with
  | nil =>
    simp only [List.map_cons, List.map_nil, printItems]
    rw [printJson_encodeRoadLine]
    rfl
  | cons d2 ds =>
    have htext : printItems ((d :: d2 :: ds).map encodeRoadLine) ++ rest
        = printJson (encodeRoadLine d) ++
          (44 :: (printItems ((d2 :: ds).map encodeRoadLine) ++ rest)) := by
      simp [printItems]
    rw [htext, printJson_encodeRoadLine]
    rfl

/-- An empty array is read back as such. -/
theorem parseValue_emptyArray (fuel : Nat) (rest : List UInt8) :
    parseValue (fuel + 1) (91 :: 93 :: rest) = some (QJsonValue.array [], rest) := by
  have h1 : isDigit 91 = false := by decide
  simp [parseValue, h1]

/-- The array of a batch of road lines, followed by anything, is read back given enough
rounds. -/
theorem parseValue_roadLinesArray (f : Nat) (roadLines : List RoadLineData)
    (rest : List UInt8) :
    parseValue (f + roadLines.length + 11)
        ((91 :: (printItems (roadLines.map encodeRoadLine) ++ [93])) ++ rest)
      = some (QJsonValue.array (roadLines.map encodeRoadLine), rest) := by
  cases roadLines with
  | nil =>
    have h := parseValue_emptyArray (f + 10) rest
    simpa [printItems] using h
  | cons d ds =>
    have hitems := parseItems_roadLines (f + 1) ds d rest
    have hhead := head_printItems_roadLines d ds (93 :: rest)
    have h := parseValue_array (f + 1 + ds.length + 10) _ _ rest
      (by rw [hhead]; decide) hitems
    have hfuel : f + (d :: ds).length + 11 = f + 1 + ds.length + 10 + 1 := by
      simp only [List.length_cons]
      omega
    rw [hfuel]
    simpa using h

/-- Parsing the text of the message of a road-line batch gives the message back, its
discriminator read as text. -/
theorem fromJson_encodeRoadLines (types : OutboundTypes) (roadLines : List RoadLineData) :
    compactJson.fromJson (compactJson.toJson (encodeRoadLines types roadLines))
      = some (createBaseMessage (asciiString (asciiBytes types.multipleRoadLines))
          (QJsonValue.array (roadLines.map encodeRoadLine))) := by
  have hbytes := printJson_encodeRoadLines types roadLines
  have hparse : ∀ f : Nat, parseValue (f + roadLines.length + 14)
      (printJson (encodeRoadLines types roadLines))
      = some (createBaseMessage (asciiString (asciiBytes types.multipleRoadLines))
          (QJsonValue.array (roadLines.map encodeRoadLine)), []) := by
    intro f
    have harr := parseValue_roadLinesArray f roadLines (125 :: [])
    have hdata := parseMembers_last (f + roadLines.length + 11) "data" _ [] _ harr
    have hstr := parseValue_string (f + roadLines.length + 11)
      (asciiBytes types.multipleRoadLines)
      (44 :: 34 :: (escapeBytes (asciiBytes "data") ++ 34 :: 58 ::
        ((91 :: (printItems (roadLines.map encodeRoadLine) ++ [93])) ++ 125 :: [])))
    have hstr2 : parseValue (f + roadLines.length + 11 + 1)
        ((34 :: (escapeBytes (asciiBytes types.multipleRoadLines) ++ [34])) ++ 44 ::
          34 :: (escapeBytes (asciiBytes "data") ++ 34 :: 58 ::
          ((91 :: (printItems (roadLines.map encodeRoadLine) ++ [93])) ++ 125 :: [])))
        = some (QJsonValue.string (asciiString (asciiBytes types.multipleRoadLines)),
            44 :: 34 :: (escapeBytes (asciiBytes "data") ++ 34 :: 58 ::
              ((91 :: (printItems (roadLines.map encodeRoadLine) ++ [93])) ++ 125 :: []))) := by
      simpa using hstr
    have hmembers := parseMembers_cons (f + roadLines.length + 11 + 1) "type" _ _ _ _ []
      hstr2 hdata
    have hobj := parseValue_object (f + roadLines.length + 11 + 1 + 1) _ _ []
      (by simp) hmembers
    have hk : asciiString (asciiBytes "data") = "data" ∧
        asciiString (asciiBytes "type") = "type" := by decide
    rw [hk.1, hk.2] at hobj
    rw [hbytes, show f + roadLines.length + 14 = f + roadLines.length + 11 + 1 + 1 + 1 by omega]
    exact hobj
  have hlen : roadLines.length + 13 ≤ (printJson (encodeRoadLines types roadLines)).length := by
    have h := length_printItems_roadLines roadLines
    rw [hbytes]
    simp only [List.length_cons, List.length_append, List.length_nil]
    omega
  obtain ⟨f, hf⟩ : ∃ f, (printJson (encodeRoadLines types roadLines)).length + 1
      = f + roadLines.length + 14 :=
    ⟨(printJson (encodeRoadLines types roadLines)).length - roadLines.length - 13, by omega⟩
  simp only [compactJson, hf, hparse f]

/-- C5: for every batch of road lines, on a connected communicator `sendMultipleRoadLines`
succeeds and writes the JSON text of the message of the batch; parsing the bytes written and
decoding the result yields the batch itself: the same number of entries, each with the same
index, matrixNum1, x1, y1, matrixNum2, x2 and y2, in the same order, whatever the wire
discriminator of the message. -/
theorem roadLines_roundtrip (types : OutboundTypes) (c : TcpCommunicator)
    (roadLines : List RoadLineData) (hconn : c.isConnectedToServer = true) :
    ∃ bytes : List UInt8,
      c.sendMultipleRoadLines compactJson types roadLines
          = (true, { c with written := c.written ++ bytes }) ∧
        (compactJson.fromJson bytes).map decodeRoadLines = some roadLines ∧
        ((compactJson.fromJson bytes).map fun m => (decodeRoadLines m).length)
          = some roadLines.length := by
  have hdecode : decodeRoadLines
      (createBaseMessage (asciiString (asciiBytes types.multipleRoadLines))
        (QJsonValue.array (roadLines.map encodeRoadLine))) = roadLines :=
    decodeRoadLines_encodeRoadLines
      { types with multipleRoadLines := asciiString (asciiBytes types.multipleRoadLines) }
      roadLines
  refine ⟨compactJson.toJson (encodeRoadLines types roadLines), ?_, ?_, ?_⟩
  · simp [TcpCommunicator.sendMultipleRoadLines, TcpCommunicator.sendJsonMessage, hconn]
  · rw [fromJson_encodeRoadLines types roadLines]
    simp [hdecode]
  · rw [fromJson_encodeRoadLines types roadLines]
    simp [hdecode]

/-- Witness for C5: a batch of three road lines, sent on a connected communicator as compact
JSON text, is read back unchanged. -/
theorem roadLines_roundtrip_witness :
    ∃ bytes : List UInt8,
      ((TcpCommunicator.init false false true 3).connectionEstablished).sendMultipleRoadLines
          compactJson exampleTypes threeRoadLines
        = (true, { (TcpCommunicator.init false false true 3).connectionEstablished with
            written := [] ++ bytes }) ∧
        (compactJson.fromJson bytes).map decodeRoadLines = some threeRoadLines :=
  (roadLines_roundtrip exampleTypes
    ((TcpCommunicator.init false false true 3).connectionEstablished) threeRoadLines
    rfl).imp fun _ h => ⟨h.1, h.2.1⟩

/-- C7: an inbound frame of type `perpendicular_line_response` with success flag `s` and
message `m` (`m` empty when the frame has no `message` member) is handled as a
perpendicular-line response and emits `perpendicularLineConfirmed(s, m)` exactly once and
nothing else. -/
theorem perpendicular_response_confirmed (lineResponse : String → Option LineResponse)
    (stringToMessageType : String → MessageType)
    (jsonObj : QJsonValue) (s : Bool) (m : String)
    (hkind : lineResponse "perpendicular_line_response"
      = some LineResponse.PerpendicularLine)
    (htype : jsonObj.value "type" = QJsonValue.string "perpendicular_line_response")
    (hsuccess : jsonObj.value "success" = QJsonValue.bool s)
    (hmessage : jsonObj.value "message" = QJsonValue.string m ∨
      (jsonObj.value "message" = QJsonValue.undefined ∧ m = "")) :
    processJsonMessage lineResponse stringToMessageType jsonObj
        = (Handled.lineResponse LineResponse.PerpendicularLine,
            [Notification.perpendicularLineConfirmed s m]) ∧
      countPerpendicularLineConfirmed
        (processJsonMessage lineResponse stringToMessageType jsonObj).2 = 1 := by
  have hd : discriminator jsonObj = "perpendicular_line_response" := by
    simp [discriminator, htype, QJsonValue.toString]
  have hm : (jsonObj.value "message").toString = m := by
    rcases hmessage with h | ⟨h, rfl⟩ <;> simp [h, QJsonValue.toString]
  have hp : processJsonMessage lineResponse stringToMessageType jsonObj
      = (Handled.lineResponse LineResponse.PerpendicularLine,
          [Notification.perpendicularLineConfirmed s m]) := by
    simp [processJsonMessage, hd, hkind, handlePerpendicularLineResponse, hsuccess, hm,
      QJsonValue.toBool]
  exact ⟨hp, by rw [hp]; rfl⟩

/-- Witness for C7: the frame `{type:"perpendicular_line_response", success:true}` yields
`perpendicularLineConfirmed(true, "")`, once, whatever `stringToMessageType` answers. -/
theorem perpendicular_response_confirmed_witness :
    processJsonMessage perpendicularOnly (fun _ => MessageType.ERROR_RESPONSE)
        (QJsonValue.object [("type", QJsonValue.string "perpendicular_line_response"),
          ("success", QJsonValue.bool true)])
      = (Handled.lineResponse LineResponse.PerpendicularLine,
          [Notification.perpendicularLineConfirmed true ""]) :=
  (perpendicular_response_confirmed perpendicularOnly (fun _ => MessageType.ERROR_RESPONSE)
    (QJsonValue.object [("type", QJsonValue.string "perpendicular_line_response"),
      ("success", QJsonValue.bool true)]) true "" (by decide) (by rfl) (by rfl)
    (Or.inr ⟨by rfl, rfl⟩)).1

/-- C8: for every detection-line index `i`, slope `a` and intercept `b`, both
`perpendicularLineGenerated` handlers call `sendPerpendicularLine` exactly once, with the
record `(i, a, b)`, when the communicator is set and connected, whatever `i` is; when the
pointer is null or the communicator is not connected they make no call. -/
theorem perpendicularLineGenerated_calls (m_tcpCommunicator : Option Nat)
    (comm : Communicator) (i : Int) (a b : Float) :
    (m_tcpCommunicator.isSome = true ∧ comm.isConnectedToServer = true →
      Effect.calls (onDrawButtonClicked_perpendicularLineGenerated m_tcpCommunicator comm i a b)
          = [Effect.sendPerpendicularLine { index := i, a := a, b := b }] ∧
        Effect.calls
            (onVideoStreamClicked_perpendicularLineGenerated m_tcpCommunicator comm i a b)
          = [Effect.sendPerpendicularLine { index := i, a := a, b := b }]) ∧
      (m_tcpCommunicator = none ∨ comm.isConnectedToServer = false →
        Effect.calls
            (onDrawButtonClicked_perpendicularLineGenerated m_tcpCommunicator comm i a b) = [] ∧
          Effect.calls
            (onVideoStreamClicked_perpendicularLineGenerated m_tcpCommunicator comm i a b)
            = []) := by
  constructor
  · rintro ⟨hsome, hconn⟩
    constructor <;>
      simp only [onDrawButtonClicked_perpendicularLineGenerated,
        onVideoStreamClicked_perpendicularLineGenerated, connectedGuard, hsome, hconn,
        Bool.and_self, if_true, Effect.calls] <;>
      split <;> simp [Effect.isCall]
  · intro h
    have hguard : connectedGuard m_tcpCommunicator comm = false := by
      rcases h with h | h <;> simp [connectedGuard, h]
    simp [onDrawButtonClicked_perpendicularLineGenerated,
      onVideoStreamClicked_perpendicularLineGenerated, hguard, Effect.calls, Effect.isCall]

/-- Witness for C8: index 2, slope 1.5 and intercept 3.0 on a connected communicator, and the
same with a null pointer. -/
theorem perpendicularLineGenerated_calls_witness :
    (Effect.calls
          (onDrawButtonClicked_perpendicularLineGenerated (some 1) acceptingCommunicator 2 1.5
            3.0)
        = [Effect.sendPerpendicularLine { index := 2, a := 1.5, b := 3.0 }] ∧
      Effect.calls
          (onVideoStreamClicked_perpendicularLineGenerated (some 1) acceptingCommunicator 2 1.5
            3.0)
        = [Effect.sendPerpendicularLine { index := 2, a := 1.5, b := 3.0 }]) ∧
      Effect.calls
          (onVideoStreamClicked_perpendicularLineGenerated none acceptingCommunicator 2 1.5 3.0)
        = [] :=
  ⟨(perpendicularLineGenerated_calls (some 1) acceptingCommunicator 2 1.5 3.0).1 ⟨rfl, rfl⟩,
    ((perpendicularLineGenerated_calls none acceptingCommunicator 2 1.5 3.0).2
      (Or.inl rfl)).2⟩

/-- Counterexample to C9: given two road lines with the same index and two detection lines
with the same index, `sendCategorizedCoordinates` submits both batches as they are, each
with a repeated index. -/
theorem sendCategorizedCoordinates_submits_repeated_index :
    (∃ batch ∈ Effect.roadBatches
        (sendCategorizedCoordinates (some 1) acceptingCommunicator sameIndexRoadLines
          sameIndexDetectionLines),
      ¬ (batch.map RoadLineData.index).Nodup) ∧
    (∃ batch ∈ Effect.detectionBatches
        (sendCategorizedCoordinates (some 1) acceptingCommunicator sameIndexRoadLines
          sameIndexDetectionLines),
      ¬ (batch.map DetectionLineData.index).Nodup) := by
  refine ⟨⟨sameIndexRoadLines, by decide, by decide⟩,
    ⟨sameIndexDetectionLines, by decide, by decide⟩⟩

/-- C9 as amended: every batch that `sendCategorizedCoordinates` submits is the list it was
given, unchanged, so the indices of a submitted batch are pairwise distinct whenever those
of the given list are. -/
theorem sendCategorizedCoordinates_keeps_distinct_index (m_tcpCommunicator : Option Nat)
    (comm : Communicator) (roadLines : List RoadLineData)
    (detectionLines : List DetectionLineData)
    (hroad : (roadLines.map RoadLineData.index).Nodup)
    (hdetection : (detectionLines.map DetectionLineData.index).Nodup) :
    (∀ batch ∈ Effect.roadBatches
        (sendCategorizedCoordinates m_tcpCommunicator comm roadLines detectionLines),
      batch = roadLines ∧ (batch.map RoadLineData.index).Nodup) ∧
    (∀ batch ∈ Effect.detectionBatches
        (sendCategorizedCoordinates m_tcpCommunicator comm roadLines detectionLines),
      batch = detectionLines ∧ (batch.map DetectionLineData.index).Nodup) := by
  have hr : ∀ batch ∈ Effect.roadBatches
      (sendCategorizedCoordinates m_tcpCommunicator comm roadLines detectionLines),
      batch = roadLines := by
    intro batch
    cases hg : connectedGuard m_tcpCommunicator comm <;> cases roadLines <;>
      cases detectionLines <;>
      simp only [sendCategorizedCoordinates, hg] <;>
      (repeat' split) <;> simp_all [Effect.roadBatches]
  have hd : ∀ batch ∈ Effect.detectionBatches
      (sendCategorizedCoordinates m_tcpCommunicator comm roadLines detectionLines),
      batch = detectionLines := by
    intro batch
    cases hg : connectedGuard m_tcpCommunicator comm <;> cases roadLines <;>
      cases detectionLines <;>
      simp only [sendCategorizedCoordinates, hg] <;>
      (repeat' split) <;> simp_all [Effect.detectionBatches]
  exact ⟨fun batch hb => ⟨hr batch hb, by rw [hr batch hb]; exact hroad⟩,
    fun batch hb => ⟨hd batch hb, by rw [hd batch hb]; exact hdetection⟩⟩

/-- Witness for the amended C9: the batch of three road lines with indices 1, 2, 3. -/
theorem sendCategorizedCoordinates_keeps_distinct_index_witness :
    (threeRoadLines.map RoadLineData.index).Nodup ∧
      (∀ batch ∈ Effect.roadBatches
          (sendCategorizedCoordinates (some 1) acceptingCommunicator threeRoadLines []),
        batch = threeRoadLines ∧ (batch.map RoadLineData.index).Nodup) :=
  ⟨by decide,
    (sendCategorizedCoordinates_keeps_distinct_index (some 1) acceptingCommunicator
      threeRoadLines [] (by decide) (by decide)).1⟩

/-- C10 at the failing input: after `setTcpCommunicator(c)` each signal of `c` runs its
handler once, but after a second `setTcpCommunicator(c)` with the same communicator each of
the eight signals runs its handler twice; `errorOccurred` runs `onTcpError` two times. -/
theorem setTcpCommunicator_same_communicator_twice :
    (∀ signal : Signal,
      (handlersRun (setTcpCommunicatorCalls [some 1]) 1 signal).length = 1) ∧
    (∀ signal : Signal,
      (handlersRun (setTcpCommunicatorCalls [some 1, some 1]) 1 signal).length = 2) ∧
    handlersRun (setTcpCommunicatorCalls [some 1, some 1]) 1 Signal.errorOccurred
      = [Slot.onTcpError, Slot.onTcpError] := by
  refine ⟨?_, ?_, by decide⟩ <;> intro signal <;> cases signal <;> decide

/-- A cleared grid has no item left. -/
theorem clearImageGrid_eq_nil (grid : List GridItem) : clearImageGrid grid = [] := by
  induction grid with
  | nil => rfl
  | cons _ rest ih => simpa [clearImageGrid] using ih

/-- The loop of `displayImages`, started in column 0 or 1 of some row, puts the image that
is `k`-th from the start of the grid at row `k / 2`, column `k % 2`. -/
theorem displayImagesLoop_eq (pixmapLoads : String → Bool) :
    ∀ (images : List ImageData) (row col : Nat), col < 2 →
      displayImagesLoop pixmapLoads images row col
        = (images.enumFrom (2 * row + col)).map fun p =>
            GridItem.imageCell (imageLabelFor pixmapLoads p.2) p.2.timestamp (p.1 / 2)
              (p.1 % 2) := by
  intro images
  induction images with
  | nil => intro row col _; rfl
  | cons imageData rest ih =>
    intro row col hcol
    have hc : col = 0 ∨ col = 1 := by omega
    rcases hc with rfl | rfl
    · have h := ih row 1 (by omega)
      simp only [displayImagesLoop, List.enumFrom_cons, List.map_cons]
      rw [if_neg (by omega), h]
      have h1 : (2 * row + 0) / 2 = row := by omega
      have h2 : (2 * row + 0) % 2 = 0 := by omega
      simp [h1, h2]
    · have h := ih (row + 1) 0 (by omega)
      simp only [displayImagesLoop, List.enumFrom_cons, List.map_cons]
      rw [if_pos (by omega), h]
      have h1 : (2 * row + 1) / 2 = row := by omega
      have h2 : (2 * row + 1) % 2 = 1 := by omega
      have h3 : 2 * (row + 1) + 0 = 2 * row + 1 + 1 := by omega
      simp [h1, h2, h3]

/-- C19: for every list of images and whatever the grid held before, `displayImages` leaves
in the grid, if the list is empty, exactly one placeholder label at row 0, column 0 spanning
one row and two columns, and otherwise exactly one cell per image, in list order, the `i`-th
image (from 0) at row `i / 2` and column `i % 2`. -/
theorem displayImages_grid (pixmapLoads : String → Bool) (grid : List GridItem)
    (images : List ImageData) :
    clearImageGrid grid = [] ∧
      displayImages pixmapLoads grid images
        = (if images.length = 0 then
            [GridItem.placeholder "해당 시간대에 캡처된 이미지가 없습니다." 0 0 1 2]
          else images.enum.map fun p =>
            GridItem.imageCell (imageLabelFor pixmapLoads p.2) p.2.timestamp (p.1 / 2)
              (p.1 % 2)) ∧
      (1 ≤ images.length → (displayImages pixmapLoads grid images).length = images.length) := by
  have hgrid : displayImages pixmapLoads grid images
      = (if images.length = 0 then
          [GridItem.placeholder "해당 시간대에 캡처된 이미지가 없습니다." 0 0 1 2]
        else images.enum.map fun p =>
          GridItem.imageCell (imageLabelFor pixmapLoads p.2) p.2.timestamp (p.1 / 2)
            (p.1 % 2)) := by
    cases images with
    | nil => simp [displayImages, clearImageGrid_eq_nil]
    | cons imageData rest =>
      have h := displayImagesLoop_eq pixmapLoads (imageData :: rest) 0 0 (by omega)
      simp only [displayImages, clearImageGrid_eq_nil, List.isEmpty_cons, List.nil_append,
        List.length_cons, Nat.succ_ne_zero, if_false, Bool.false_eq_true, List.enum]
      simpa using h
  refine ⟨clearImageGrid_eq_nil grid, hgrid, ?_⟩
  intro hpos
  rw [hgrid, if_neg (by omega)]
  simp

/-- Witness for C19: three images fill row 0 and the first column of row 1. -/
theorem displayImages_grid_witness :
    (displayImages (fun _ => true) CapturedImages.init.grid threeImages).length = 3 :=
  (displayImages_grid (fun _ => true) CapturedImages.init.grid threeImages).2.2 (by decide)

/-- C13: for every list of images, the clickable labels that `displayImages` puts into the
grid are, in list order, labels that hold the path, timestamp and log text of the images
unchanged; and a press of the left button on any label emits `clicked` exactly once with the
three values the label holds, while a press of any other button emits nothing. -/
theorem displayImages_labels (pixmapLoads : String → Bool) (grid : List GridItem)
    (images : List ImageData) :
    ((displayImages pixmapLoads grid images).filterMap GridItem.imageLabel?).map
        (fun l => (l.m_imagePath, l.m_timestamp, l.m_logText))
      = images.map (fun i => (i.imagePath, i.timestamp, i.logText)) ∧
    (∀ l ∈ (displayImages pixmapLoads grid images).filterMap GridItem.imageLabel?,
      l.mousePressEvent MouseButton.LeftButton = [⟨l.m_imagePath, l.m_timestamp, l.m_logText⟩] ∧
      ∀ button, button ≠ MouseButton.LeftButton → l.mousePressEvent button = []) := by
  constructor
  · have hloop : ∀ (images : List ImageData) (row col : Nat),
        ((displayImagesLoop pixmapLoads images row col).filterMap GridItem.imageLabel?).map
          (fun l => (l.m_imagePath, l.m_timestamp, l.m_logText))
        = images.map (fun i => (i.imagePath, i.timestamp, i.logText)) := by
      intro images
      induction images with
      | nil => intro _ _; rfl
      | cons imageData rest ih =>
        intro row col
        have hlabel : (imageLabelFor pixmapLoads imageData).m_imagePath = imageData.imagePath ∧
            (imageLabelFor pixmapLoads imageData).m_timestamp = imageData.timestamp ∧
            (imageLabelFor pixmapLoads imageData).m_logText = imageData.logText := by
          unfold imageLabelFor
          split <;> simp [ClickableImageLabel.setImageData]
        simp only [displayImagesLoop]
        split <;>
          simp [GridItem.imageLabel?, ih, hlabel.1, hlabel.2.1, hlabel.2.2]
    cases images with
    | nil => simp [displayImages, clearImageGrid_eq_nil, GridItem.imageLabel?]
    | cons imageData rest =>
      simp only [displayImages, clearImageGrid_eq_nil, List.isEmpty_cons, List.nil_append,
        Bool.false_eq_true, if_false]
      exact hloop (imageData :: rest) 0 0
  · intro l _
    constructor
    · simp [ClickableImageLabel.mousePressEvent]
    · intro button hb
      simp [ClickableImageLabel.mousePressEvent, hb]

/-- Witness for C13: the label of the first of three images holds its data and answers a
left press with them and a right press with nothing. -/
theorem displayImages_labels_witness :
    ((displayImages (fun _ => true) [] threeImages).filterMap GridItem.imageLabel?).map
        (fun l => (l.m_imagePath, l.m_timestamp, l.m_logText))
      = [("a.jpg", "10:00", "car"), ("b.jpg", "10:05", "bus"), ("c.jpg", "10:09", "man")] ∧
    (imageLabelFor (fun _ => true) ⟨"a.jpg", "10:00", "car", "vehicle", "Left"⟩).mousePressEvent
        MouseButton.RightButton = [] :=
  ⟨(displayImages_labels (fun _ => true) [] threeImages).1,
    ((displayImages_labels (fun _ => true) [] threeImages).2
      (imageLabelFor (fun _ => true) ⟨"a.jpg", "10:00", "car", "vehicle", "Left"⟩)
      (by decide)).2 MouseButton.RightButton (by decide)⟩

/-- Every operation keeps the request timer single-shot and, if it was not running, leaves
it not running and does not run `onRequestTimeout`. -/
theorem step_timer_inactive (pixmapLoads : String → Bool) (s : CapturedImages) (op : WindowOp)
    (hs : s.m_requestTimeoutTimer.singleShot = true)
    (ha : s.m_requestTimeoutTimer.active = false) :
    (CapturedImages.step pixmapLoads s op).1.m_requestTimeoutTimer.singleShot = true ∧
      (CapturedImages.step pixmapLoads s op).1.m_requestTimeoutTimer.active = false ∧
      (CapturedImages.step pixmapLoads s op).2 = false := by
  cases op <;>
    simp [CapturedImages.step, onImagesReceived, requestTimerExpiry, hs, ha]

/-- Every run from a state whose timer is single-shot and not running ends in such a state
and never runs `onRequestTimeout`. -/
theorem run_timer_inactive (pixmapLoads : String → Bool) (ops : List WindowOp) :
    ∀ s : CapturedImages, s.m_requestTimeoutTimer.singleShot = true →
      s.m_requestTimeoutTimer.active = false →
      (CapturedImages.run pixmapLoads s ops).1.m_requestTimeoutTimer.singleShot = true ∧
        (CapturedImages.run pixmapLoads s ops).1.m_requestTimeoutTimer.active = false ∧
        (CapturedImages.run pixmapLoads s ops).2 = 0 := by
  induction ops with
  | nil => intro s hs ha; exact ⟨hs, ha, rfl⟩
  | cons op ops ih =>
    intro s hs ha
    obtain ⟨h1, h2, h3⟩ := step_timer_inactive pixmapLoads s op hs ha
    obtain ⟨g1, g2, g3⟩ := ih (CapturedImages.step pixmapLoads s op).1 h1 h2
    simp only [CapturedImages.run]
    exact ⟨g1, g2, by simp [h3, g3]⟩

/-- C11: the image-request timeout timer is configured single-shot and stays so in every
state the window reaches; and from every state `onImagesReceived` leaves the timer not
running, so that an expiry event after it does not run `onRequestTimeout` and changes
nothing. -/
theorem onImagesReceived_stops_timer (pixmapLoads : String → Bool) (s : CapturedImages)
    (images : List ImageData) (ops : List WindowOp) :
    setupNetworkConnection_requestTimeoutTimer.singleShot = true ∧
      (CapturedImages.run pixmapLoads CapturedImages.init
        ops).1.m_requestTimeoutTimer.singleShot = true ∧
      (onImagesReceived pixmapLoads s images).m_requestTimeoutTimer.active = false ∧
      requestTimerExpiry (onImagesReceived pixmapLoads s images)
        = (onImagesReceived pixmapLoads s images, false) := by
  have hstop : (onImagesReceived pixmapLoads s images).m_requestTimeoutTimer.active = false := by
    cases h : s.m_requestTimeoutTimer.active <;> simp [onImagesReceived, h]
  refine ⟨rfl, (run_timer_inactive pixmapLoads ops CapturedImages.init rfl rfl).1, hstop, ?_⟩
  simp [requestTimerExpiry, hstop]

/-- C17: in every state the window reaches by its operations and by expiry events, in any
order, the request timeout timer is not running, `onRequestTimeout` has not run a single
time, and a further expiry event does not run it either. -/
theorem request_timer_never_started (pixmapLoads : String → Bool) (ops : List WindowOp) :
    (CapturedImages.run pixmapLoads CapturedImages.init ops).1.m_requestTimeoutTimer.active
        = false ∧
      (CapturedImages.run pixmapLoads CapturedImages.init ops).2 = 0 ∧
      (requestTimerExpiry (CapturedImages.run pixmapLoads CapturedImages.init ops).1).2
        = false ∧
      (CapturedImages.step pixmapLoads (CapturedImages.run pixmapLoads CapturedImages.init ops).1
        WindowOp.onRequestImagesClicked).1
        = (CapturedImages.run pixmapLoads CapturedImages.init ops).1 := by
  obtain ⟨_, h2, h3⟩ := run_timer_inactive pixmapLoads ops CapturedImages.init rfl rfl
  exact ⟨h2, h3, by simp [requestTimerExpiry, h2], rfl⟩

/-- C18 at the failing input: the request timeout timer is configured with 30000 ms, which is
not 60000 ms, while `onRequestTimeout` tells the user that the server did not answer within
60 seconds. -/
theorem request_timeout_interval_mismatch :
    CapturedImages.init.m_requestTimeoutTimer.interval = 30000 ∧
      CapturedImages.init.m_requestTimeoutTimer.interval ≠ 60 * 1000 ∧
      (onRequestTimeout CapturedImages.init).2
        = [Effect.qDebug "이미지 요청 타임아웃 (60초)",
           Effect.messageBox "요청 타임아웃"
             "서버에서 60초 내에 응답이 없습니다.\n서버 상태와 네트워크 연결을 확인하고 다시 시도해주세요."] := by
  refine ⟨rfl, by decide, rfl⟩

/-- C14: for every sending operation of `MainWindow` and every input, when the communicator
pointer is null or `isConnectedToServer()` is false the operation makes no call on the
communicator: no sender and no `requestImageData`. -/
theorem no_call_unless_connected (m_tcpCommunicator : Option Nat) (comm : Communicator)
    (x1 y1 x2 y2 : Int) (lines : List (QPoint × QPoint)) (roadLines : List RoadLineData)
    (detectionLines : List DetectionLineData) (dateString : String) (selectedHour : Int)
    (detectionLineIndex : Int) (a b : Float)
    (h : m_tcpCommunicator = none ∨ comm.isConnectedToServer = false) :
    Effect.calls (sendSingleLineCoordinates m_tcpCommunicator comm x1 y1 x2 y2) = [] ∧
      Effect.calls (sendMultipleLineCoordinates m_tcpCommunicator comm lines) = [] ∧
      Effect.calls (sendCategorizedCoordinates m_tcpCommunicator comm roadLines detectionLines)
        = [] ∧
      Effect.calls (onRequestImagesClicked m_tcpCommunicator comm dateString selectedHour)
        = [] ∧
      Effect.calls (onDrawButtonClicked_perpendicularLineGenerated m_tcpCommunicator comm
        detectionLineIndex a b) = [] ∧
      Effect.calls (onVideoStreamClicked_perpendicularLineGenerated m_tcpCommunicator comm
        detectionLineIndex a b) = [] := by
  have hguard : connectedGuard m_tcpCommunicator comm = false := by
    rcases h with h | h <;> simp [connectedGuard, h]
  simp [sendSingleLineCoordinates, sendMultipleLineCoordinates, sendCategorizedCoordinates,
    onRequestImagesClicked, onDrawButtonClicked_perpendicularLineGenerated,
    onVideoStreamClicked_perpendicularLineGenerated, hguard, Effect.calls, Effect.isCall]

/-- Witness for C14: a null pointer. -/
theorem no_call_unless_connected_witness :
    Effect.calls (sendMultipleLineCoordinates none acceptingCommunicator twoLines) = [] ∧
      Effect.calls (onRequestImagesClicked none acceptingCommunicator "2025-01-31" 13) = [] :=
  ⟨(no_call_unless_connected none acceptingCommunicator 0 0 0 0 twoLines [] [] "2025-01-31"
      13 0 0 0 (Or.inl rfl)).2.1,
    (no_call_unless_connected none acceptingCommunicator 0 0 0 0 twoLines [] [] "2025-01-31"
      13 0 0 0 (Or.inl rfl)).2.2.2.1⟩

/-- The calls made by the loop of `sendMultipleLineCoordinates`. -/
theorem calls_of_line_loop (lines : List (QPoint × QPoint)) (tail : List Effect) :
    Effect.calls ((lines.flatMap fun line =>
        [Effect.sendLineCoordinates line.1.x line.1.y line.2.x line.2.y,
         Effect.qDebug "기준선 %1 좌표 전송 성공:"]) ++ tail)
      = (lines.map fun line =>
          Effect.sendLineCoordinates line.1.x line.1.y line.2.x line.2.y) ++
        Effect.calls tail := by
  induction lines with
  | nil => simp
  | cons line rest ih =>
    simp only [Effect.calls] at ih
    simp [Effect.calls, List.filter_cons, Effect.isCall, ih]

/-- C20: for every list of `n` lines, when the communicator is set and connected
`sendMultipleLineCoordinates` makes exactly `n` calls, all of them `sendLineCoordinates`, in
list order, the `i`-th with the x and y of the first and of the second point of the `i`-th
line; and whatever those calls return, it ends by reporting `n` lines as sent. -/
theorem sendMultipleLineCoordinates_calls (p : Nat) (comm : Communicator)
    (lines : List (QPoint × QPoint)) (hconn : comm.isConnectedToServer = true) :
    Effect.calls (sendMultipleLineCoordinates (some p) comm lines)
        = (lines.map fun line =>
            Effect.sendLineCoordinates line.1.x line.1.y line.2.x line.2.y) ∧
      (Effect.calls (sendMultipleLineCoordinates (some p) comm lines)).length = lines.length ∧
      (sendMultipleLineCoordinates (some p) comm lines).getLast?
        = some (Effect.messageBox "전송 완료"
            (toString lines.length ++ "개의 기준선 좌표가 서버로 전송되었습니다.")) ∧
      (∀ comm2 : Communicator, comm2.isConnectedToServer = true →
        sendMultipleLineCoordinates (some p) comm2 lines
          = sendMultipleLineCoordinates (some p) comm lines) := by
  have hcalls : Effect.calls (sendMultipleLineCoordinates (some p) comm lines)
      = (lines.map fun line =>
          Effect.sendLineCoordinates line.1.x line.1.y line.2.x line.2.y) := by
    simp only [sendMultipleLineCoordinates, connectedGuard, hconn, Option.isSome_some,
      Bool.and_self, if_true]
    rw [calls_of_line_loop]
    simp [Effect.calls, Effect.isCall]
  refine ⟨hcalls, by rw [hcalls]; simp, ?_, ?_⟩
  · simp [sendMultipleLineCoordinates, connectedGuard, hconn]
  · intro comm2 h2
    simp [sendMultipleLineCoordinates, connectedGuard, hconn, h2]

/-- Witness for C20: two lines. -/
theorem sendMultipleLineCoordinates_calls_witness :
    Effect.calls (sendMultipleLineCoordinates (some 1) acceptingCommunicator twoLines)
      = [Effect.sendLineCoordinates 1 2 3 4, Effect.sendLineCoordinates 5 6 7 8] :=
  (sendMultipleLineCoordinates_calls 1 acceptingCommunicator twoLines rfl).1

/-- C16: if `isStreaming()` is false once `stopStream()` has returned, then in every state a
click on the video widget stops a running stream and shows the overlay, then shows the
notice of `onVideoStreamClicked`, and does nothing else: the line-drawing dialog is neither
created nor executed and `m_lineDrawingDialog` stays as it was. -/
theorem click_never_opens_dialog (streamingAfterStop : Bool) (v : VideoTab)
    (hstop : streamingAfterStop = false) :
    (videoStreamWidgetClicked streamingAfterStop v).2
        = (if v.isStreaming then [VideoEffect.stopStream, VideoEffect.showOverlay] else []) ++
          [VideoEffect.messageBox "안내" "먼저 스트리밍을 시작해주세요."] ∧
      VideoEffect.createLineDrawingDialog ∉ (videoStreamWidgetClicked streamingAfterStop v).2 ∧
      VideoEffect.execLineDrawingDialog ∉ (videoStreamWidgetClicked streamingAfterStop v).2 ∧
      (videoStreamWidgetClicked streamingAfterStop v).1.isStreaming = false ∧
      (videoStreamWidgetClicked streamingAfterStop v).1.m_lineDrawingDialog
        = v.m_lineDrawingDialog := by
  subst hstop
  cases hs : v.isStreaming <;>
    simp [videoStreamWidgetClicked, clickedStopHandler, onVideoStreamClicked, hs]

/-- Witness for C16: a click while the stream is running. -/
theorem click_never_opens_dialog_witness :
    (videoStreamWidgetClicked false ⟨true, false⟩).2
      = [VideoEffect.stopStream, VideoEffect.showOverlay,
         VideoEffect.messageBox "안내" "먼저 스트리밍을 시작해주세요."] :=
  (click_never_opens_dialog false ⟨true, false⟩ rfl).1

/-- When every connection of the window comes from the communicator `old` and is one of the
eight signal/slot pairs that `setTcpCommunicator` connects, the eight `disconnect` calls of
`setTcpCommunicator` for `old` leave no connection. -/
theorem disconnects_remove_all (conns : List Connection) (old : Nat)
    (hconns : ∀ c ∈ conns, c.sender = old ∧ standardPair c.signal c.slot = true) :
    qtDisconnect
      (qtDisconnect
        (qtDisconnect
          (qtDisconnect
            (qtDisconnect
              (qtDisconnect
                (qtDisconnect
                  (qtDisconnect conns old Signal.connected (some Slot.onTcpConnected))
                  old Signal.disconnected (some Slot.onTcpDisconnected))
                old Signal.errorOccurred (some Slot.onTcpError))
              old Signal.messageReceived (some Slot.onTcpDataReceived))
            old Signal.imagesReceived (some Slot.onImagesReceived))
          old Signal.coordinatesConfirmed (some Slot.onCoordinatesConfirmed))
        old Signal.statusUpdated (some Slot.onStatusUpdated))
      old Signal.perpendicularLineConfirmed none = [] := by
  rw [List.eq_nil_iff_forall_not_mem]
  intro c hc
  simp only [qtDisconnect, List.mem_filter] at hc
  obtain ⟨⟨⟨⟨⟨⟨⟨⟨hmem, h1⟩, h2⟩, h3⟩, h4⟩, h5⟩, h6⟩, h7⟩, h8⟩ := hc
  obtain ⟨hsender, hpair⟩ := hconns c hmem
  obtain ⟨sender, signal, slot⟩ := c
  simp only at hsender
  subst hsender
  cases signal <;> cases slot <;> simp [standardPair] at hpair h1 h2 h3 h4 h5 h6 h7 h8

/-- The invariant of the wiring is kept by `setTcpCommunicator`: afterwards every connection
comes from the communicator that is set and is one of the eight pairs. -/
theorem setTcpCommunicator_keeps_wiring (w : MainWindow) (communicator : Option Nat)
    (hw : ∀ c ∈ w.connections,
      w.m_tcpCommunicator = some c.sender ∧ standardPair c.signal c.slot = true) :
    ∀ c ∈ (setTcpCommunicator w communicator).connections,
      (setTcpCommunicator w communicator).m_tcpCommunicator = some c.sender ∧
        standardPair c.signal c.slot = true := by
  intro c hc
  cases hcur : w.m_tcpCommunicator with
  | none =>
    have hempty : w.connections = [] := by
      rw [List.eq_nil_iff_forall_not_mem]
      intro d hd
      have := (hw d hd).1
      rw [hcur] at this
      exact absurd this (by simp)
    cases communicator with
    | none => simp [setTcpCommunicator, hcur, hempty] at hc
    | some n =>
      simp only [setTcpCommunicator, hcur, hempty, qtConnect, List.nil_append,
        List.cons_append, List.mem_cons, List.mem_singleton, List.not_mem_nil, or_false] at hc
      rcases hc with rfl | rfl | rfl | rfl | rfl | rfl | rfl | rfl <;>
        simp [setTcpCommunicator, standardPair]
  | some old =>
    have hold : ∀ d ∈ w.connections, d.sender = old ∧ standardPair d.signal d.slot = true := by
      intro d hd
      have h := hw d hd
      rw [hcur] at h
      exact ⟨(Option.some.inj h.1).symm, h.2⟩
    by_cases hsame : communicator = some old
    · subst hsame
      simp only [setTcpCommunicator, hcur, ne_eq, not_true_eq_false, if_false, qtConnect,
        List.mem_append, List.mem_singleton] at hc
      rcases hc with (((((((hc | rfl) | rfl) | rfl) | rfl) | rfl) | rfl) | rfl) | rfl
      · exact ⟨by simp [setTcpCommunicator, (hold c hc).1], (hold c hc).2⟩
      all_goals simp [setTcpCommunicator, standardPair]
    · have hne : some old ≠ communicator := fun h => hsame h.symm
      have hgone := disconnects_remove_all w.connections old hold
      cases communicator with
      | none =>
        simp only [setTcpCommunicator, hcur, ne_eq, hne, not_false_eq_true, if_true,
          hgone, List.not_mem_nil] at hc
      | some n =>
        simp only [setTcpCommunicator, hcur, ne_eq, hne, not_false_eq_true, if_true, hgone,
          qtConnect, List.nil_append, List.cons_append, List.mem_cons, List.mem_singleton,
          List.not_mem_nil, or_false] at hc
        rcases hc with rfl | rfl | rfl | rfl | rfl | rfl | rfl | rfl <;>
          simp [setTcpCommunicator, standardPair]

/-- In every state reached by `setTcpCommunicator` calls, each connection of the window comes
from the communicator that is currently set and is one of the eight signal/slot pairs. -/
theorem wiring_of_calls (calls : List (Option Nat)) :
    ∀ c ∈ (setTcpCommunicatorCalls calls).connections,
      (setTcpCommunicatorCalls calls).m_tcpCommunicator = some c.sender ∧
        standardPair c.signal c.slot = true := by
  have hgen : ∀ (calls : List (Option Nat)) (w : MainWindow),
      (∀ c ∈ w.connections,
        w.m_tcpCommunicator = some c.sender ∧ standardPair c.signal c.slot = true) →
      ∀ c ∈ (calls.foldl setTcpCommunicator w).connections,
        (calls.foldl setTcpCommunicator w).m_tcpCommunicator = some c.sender ∧
          standardPair c.signal c.slot = true := by
    intro calls
    induction calls with
    | nil => intro w hw; simpa using hw
    | cons communicator rest ih =>
      intro w hw
      simp only [List.foldl_cons]
      exact ih _ (setTcpCommunicator_keeps_wiring w communicator hw)
  exact hgen calls MainWindow.init (by simp [MainWindow.init])

/-- C15: in every state reached by `setTcpCommunicator` calls, a call `setTcpCommunicator(c2)`
leaves the window without any connection from a communicator `c1` other than `c2`, in
particular from the one that was set before: an emission of any of the eight signals by
`c1` runs no handler of the window. -/
theorem setTcpCommunicator_unsubscribes_old (calls : List (Option Nat)) (c1 : Nat)
    (c2 : Option Nat) (hne : c2 ≠ some c1) :
    (∀ c ∈ (setTcpCommunicator (setTcpCommunicatorCalls calls) c2).connections,
        c.sender ≠ c1) ∧
      (∀ signal : Signal,
        handlersRun (setTcpCommunicator (setTcpCommunicatorCalls calls) c2) c1 signal = []) := by
  have hinv := setTcpCommunicator_keeps_wiring (setTcpCommunicatorCalls calls) c2
    (wiring_of_calls calls)
  have hnew : (setTcpCommunicator (setTcpCommunicatorCalls calls) c2).m_tcpCommunicator = c2 := by
    simp [setTcpCommunicator]
  have hsender : ∀ c ∈ (setTcpCommunicator (setTcpCommunicatorCalls calls) c2).connections,
      c.sender ≠ c1 := by
    intro c hc hc1
    have h := (hinv c hc).1
    rw [hnew, hc1] at h
    exact hne h
  refine ⟨hsender, fun signal => ?_⟩
  simp only [handlersRun, List.map_eq_nil_iff, List.filter_eq_nil_iff]
  intro c hc
  have := hsender c hc
  simp [this]

/-- Witness for C15: communicator 1 is set, then communicator 2 replaces it. -/
theorem setTcpCommunicator_unsubscribes_old_witness :
    handlersRun (setTcpCommunicatorCalls [some 1]) 1 Signal.errorOccurred = [Slot.onTcpError] ∧
    handlersRun (setTcpCommunicator (setTcpCommunicatorCalls [some 1]) (some 2)) 1
      Signal.errorOccurred = [] ∧
    handlersRun (setTcpCommunicator (setTcpCommunicatorCalls [some 1]) (some 2)) 2
      Signal.errorOccurred = [Slot.onTcpError] :=
  ⟨by decide,
    (setTcpCommunicator_unsubscribes_old [some 1] 1 (some 2) (by decide)).2
      Signal.errorOccurred, by decide⟩

/-- Counterexample to C21: the `Message` union has nine kinds and `MessageType` has six
values, so no assignment of `MessageType` values to the kinds gives each of the nine its
own value; going by the names, `DetectionLineResponse`, `CategorizedCoordinatesResponse` and
`PerpendicularLineResponse` have no enumerator at all. -/
theorem messageType_too_small_for_union :
    messageUnionKinds.length = 9 ∧ Fintype.card MessageType = 6 ∧
      (¬ ∃ f : MessageKind → MessageType,
        ∀ a ∈ messageUnionKinds, ∀ b ∈ messageUnionKinds, f a = f b → a = b) ∧
      MessageKind.DetectionLineResponse.messageType? = none ∧
      MessageKind.CategorizedCoordinatesResponse.messageType? = none ∧
      MessageKind.PerpendicularLineResponse.messageType? = none := by
  refine ⟨rfl, rfl, ?_, rfl, rfl, rfl⟩
  rintro ⟨f, hf⟩
  have hnodup : (messageUnionKinds.map f).Nodup :=
    List.Nodup.map_on (fun a ha b hb h => hf a ha b hb h) (by decide)
  have hle := hnodup.length_le_card
  have hcard : Fintype.card MessageType = 6 := rfl
  rw [hcard] at hle
  simp [messageUnionKinds] at hle

/-- C21 as amended: the six enumerators of `MessageType` have pairwise distinct values, and
six of the nine kinds of the `Message` union (RequestImages, ImagesResponse,
SendCoordinates, CoordinatesResponse, StatusUpdate, ErrorResponse) each correspond to their
own enumerator, every enumerator being taken by one of them; DetectionLineResponse,
CategorizedCoordinatesResponse and PerpendicularLineResponse correspond to none. -/
theorem six_kinds_have_own_messageType :
    (∀ s t : MessageType, s.underlying = t.underlying → s = t) ∧
      messageUnionKinds.filter (fun k => k.messageType?.isSome)
        = [MessageKind.RequestImages, MessageKind.ImagesResponse,
           MessageKind.SendCoordinates, MessageKind.CoordinatesResponse,
           MessageKind.StatusUpdate, MessageKind.ErrorResponse] ∧
      messageUnionKinds.filterMap MessageKind.messageType?
        = [MessageType.REQUEST_IMAGES, MessageType.IMAGES_RESPONSE,
           MessageType.SEND_COORDINATES, MessageType.COORDINATES_RESPONSE,
           MessageType.STATUS_UPDATE, MessageType.ERROR_RESPONSE] ∧
      (messageUnionKinds.filterMap MessageKind.messageType?).Nodup ∧
      (∀ t : MessageType, t ∈ messageUnionKinds.filterMap MessageKind.messageType?) ∧
      (∀ a b : MessageKind, a.messageType?.isSome = true →
        a.messageType? = b.messageType? → a = b) ∧
      messageUnionKinds.filter (fun k => k.messageType?.isNone)
        = [MessageKind.DetectionLineResponse, MessageKind.CategorizedCoordinatesResponse,
           MessageKind.PerpendicularLineResponse] := by
  refine ⟨?_, by decide, by decide, by decide, ?_, ?_, by decide⟩
  · intro s t
    cases s <;> cases t <;> simp [MessageType.underlying]
  · intro t
    cases t <;> decide
  · intro a b
    cases a <;> cases b <;> simp [MessageKind.messageType?]

/-- Witness for the amended C21: `StatusUpdate` has the enumerator `STATUS_UPDATE`, which
is not the enumerator of `ErrorResponse`. -/
theorem six_kinds_have_own_messageType_witness :
    MessageKind.StatusUpdate.messageType? = some MessageType.STATUS_UPDATE ∧
      MessageKind.StatusUpdate.messageType? ≠ MessageKind.ErrorResponse.messageType? :=
  ⟨rfl, fun h => absurd
    (six_kinds_have_own_messageType.2.2.2.2.2.1 MessageKind.StatusUpdate
      MessageKind.ErrorResponse rfl h) (by decide)⟩

end Client
